import Mathlib

/-!
# Dolphin jumper: a shallow embedding of `game.js`

Numbers that the game computes with fractions (positions, velocities, sprite
sizes, random draws) are rationals, so arithmetic is exact.  Counters that the
source only ever sets to literals, increments, or decrements under a positivity
guard (`score`, `frames`, `shake`, `landingHold`) are natural numbers.
`best` is a `JsInt`: the integer that `parseInt` read from storage, or NaN when the
stored text is not a number; `saved` logs the writes to storage.

Every `Math.random()` call site receives its value from a `Draws` record, so a
statement quantified over `Draws` covers every outcome of the random draws.
Playing a sound changes none of the variables modelled here.
-/

namespace Jumper

/-! ## Constants and configuration -/

def CANVAS_W : ℚ := 900
def CANVAS_H : ℚ := 600
def GROUND_Y : ℚ := 500
def GRAVITY : ℚ := 3 / 5
def JUMP_STRENGTH : ℚ := -15

def IMAGES_TO_LOAD : List String := ["bg1.png", "cover.png", "shield.png"]

def AUDIO_TO_LOAD : List (String × String) :=
  [("bgmusic", "bgmusic.mp3"), ("jump", "jumpw.mp3"), ("splash", "splash1.mp3"),
   ("gameover", "gameover.mp3"), ("shield", "shield.wav"), ("hit", "hit.wav")]

def SEQ_SWIM : List String := ["swim1.png", "swim2.png", "swim3.png", "swim4.png"]
def SEQ_JUMP : List String :=
  ["jump1.png", "jump2.png", "jump3.png", "jump4.png", "jump5.png", "jump6.png"]
def SEQ_WATER : List String := ["water1.png", "water2.png", "water3.png", "water4.png"]
def SEQ_ICE : List String :=
  ["ice1.png", "ice2.png", "ice3.png", "ice4.png", "ice5.png", "ice6.png"]
def SEQ_CLOUD : List String :=
  ["cloud1.png", "cloud2.png", "cloud3.png", "cloud4.png", "cloud5.png", "cloud6.png"]

/-! ## Data model -/

inductive Mode where
  | LOADING
  | COVER
  | PLAY
  | OVER
  deriving DecidableEq, Repr

/-- A value of `gameState.best`: the result of `parseInt` at start-up, which is an
integer or NaN, or a score assigned later. -/
inductive JsInt where
  | nan
  | num (n : ℤ)
  deriving DecidableEq

/-- The JavaScript comparison `n > a` of an integer `n` with `a`; false when `a`
is NaN. -/
def JsInt.below (a : JsInt) (n : ℤ) : Bool :=
  match a with
  | .nan => false
  | .num b => decide (n > b)

/-- The JavaScript comparison `a >= n`; false when `a` is NaN. -/
def JsInt.atLeast (a : JsInt) (n : ℤ) : Bool :=
  match a with
  | .nan => false
  | .num b => decide (b ≥ n)

/-- The start-up value `parseInt(localStorage.getItem("jumper_highscore") || "0")`:
with no entry (or an empty one) the text `"0"` is parsed, otherwise the stored
text, whose parse `parsed` is an integer or, for text that does not begin with
one, NaN. -/
def loadBest (stored : Option JsInt) : JsInt :=
  match stored with
  | none => JsInt.num 0
  | some parsed => parsed

/-- An image handle, reduced to the two properties the simulation reads. -/
structure Img where
  width : ℚ
  height : ℚ
  deriving DecidableEq

/-- The image part of `assets`: a file name maps to a handle or is absent. -/
structure Assets where
  images : String → Option Img

structure GameState where
  mode : Mode
  score : ℕ
  best : JsInt
  frames : ℕ
  shake : ℕ
  audioUnlocked : Bool
  deriving DecidableEq

structure Dolphin where
  x : ℚ
  y : ℚ
  vy : ℚ
  isJumping : Bool
  landingHold : ℕ
  deriving DecidableEq

structure Cloud where
  img : Img
  x : ℚ
  y : ℚ
  w : ℚ
  h : ℚ
  speed : ℚ
  deriving DecidableEq

structure Ice where
  active : Bool
  x : ℚ
  y : ℚ
  img : Option Img
  passed : Bool
  deriving DecidableEq

structure Powerup where
  active : Bool
  x : ℚ
  y : ℚ
  speed : ℚ
  shieldOn : Bool
  deriving DecidableEq

/-- All mutable globals of the simulation, together with `saved`, the values
written so far by `localStorage.setItem("jumper_highscore", ...)`, latest first. -/
structure World where
  gameState : GameState
  dolphin : Dolphin
  clouds : List Cloud
  ice : Ice
  powerup : Powerup
  saved : List ℤ
  deriving DecidableEq

structure Rect where
  x : ℚ
  y : ℚ
  w : ℚ
  h : ℚ

/-- The values returned by the five `Math.random()` calls of one `spawnCloud`. -/
structure CloudDraw where
  pick : ℚ
  scale : ℚ
  x : ℚ
  y : ℚ
  speed : ℚ

/-- The values returned by `Math.random()` during one call of `resetGame` or
`update`: `cloud k` serves the `k`-th `spawnCloud` call, `gap0` the first
(overwritten) gap computation, `gap` the second, `iceImg` the obstacle sprite
choice, and `chance`, `px`, `py`, `pspeed` the powerup spawn. -/
structure Draws where
  cloud : ℕ → CloudDraw
  gap0 : ℚ
  gap : ℚ
  iceImg : ℚ
  chance : ℚ
  px : ℚ
  py : ℚ
  pspeed : ℚ

/-- How a call of `update` ends: it returns, it throws a `TypeError` (reading
`width` of a missing dolphin sprite) leaving the globals as mutated so far, or
the cloud top-up loop has not finished within the given number of iterations. -/
inductive Outcome where
  | done (w : World)
  | typeError (w : World)
  | diverges

/-- The globals after the call, when the call ended. -/
def Outcome.final : Outcome → Option World
  | .done w => some w
  | .typeError w => some w
  | .diverges => none

/-- The module-level initial values; `best` is the parsed stored high score (see
`loadBest`) and `stored` the writes to storage made before (none at page load). -/
def initialWorld (best : JsInt) (stored : List ℤ) : World :=
  { gameState :=
      { mode := Mode.LOADING, score := 0, best := best, frames := 0, shake := 0,
        audioUnlocked := false }
    dolphin := { x := 100, y := GROUND_Y, vy := 0, isJumping := false, landingHold := 0 }
    clouds := []
    ice := { active := false, x := 0, y := 450, img := none, passed := false }
    powerup := { active := false, x := 0, y := 0, speed := 0, shieldOn := false }
    saved := stored }

/-! ## Game logic -/

/-- The entry `list[Math.floor(r * list.length)]`, absent when the index is
outside the list. -/
def pickName (list : List String) (r : ℚ) : Option String :=
  let i : ℤ := Rat.floor (r * (list.length : ℚ))
  if i < 0 then none else list.get? i.toNat

def getRandomImage (A : Assets) (list : List String) (r : ℚ) : Option Img :=
  (pickName list r).bind A.images

def spawnCloud (A : Assets) (c : CloudDraw) (startOffScreen : Bool)
    (clouds : List Cloud) : List Cloud :=
  match (pickName SEQ_CLOUD c.pick).bind A.images with
  | none => clouds
  | some img =>
    let scale : ℚ := 45 / 100 + c.scale * (55 / 100)
    let w := img.width * scale
    let h := img.height * scale
    let x := if startOffScreen then CANVAS_W + c.x * 700 else c.x * (CANVAS_W + 700)
    let y := 10 + c.y * 200
    let speed := 8 / 10 + c.speed * (14 / 10)
    clouds ++ [{ img := img, x := x, y := y, w := w, h := h, speed := speed }]

def startShake (frames : ℕ) (w : World) : World :=
  { w with gameState := { w.gameState with shake := frames } }

def resetGame (A : Assets) (d : Draws) (w : World) : World :=
  { gameState := { w.gameState with score := 0, shake := 0, mode := Mode.PLAY }
    dolphin := { x := 100, y := GROUND_Y, vy := 0, isJumping := false, landingHold := 0 }
    ice :=
      { x := 1100, y := 450, active := true, passed := false,
        img := getRandomImage A SEQ_ICE d.iceImg }
    powerup := { w.powerup with active := false, shieldOn := false, x := CANVAS_W + 600, y := 390 }
    clouds := (List.range 12).foldl (fun cl i => spawnCloud A (d.cloud i) false cl) []
    saved := w.saved }

def triggerJump (w : World) : World :=
  if w.gameState.mode ≠ Mode.PLAY then w
  else if !w.dolphin.isJumping then
    { w with dolphin :=
        { w.dolphin with isJumping := true, vy := JUMP_STRENGTH, landingHold := 0 } }
  else w

def gameOver (w : World) : World :=
  let w := { w with gameState := { w.gameState with mode := Mode.OVER } }
  let w := startShake 24 w
  if w.gameState.best.below (w.gameState.score : ℤ) then
    { w with
      gameState := { w.gameState with best := JsInt.num (w.gameState.score : ℤ) }
      saved := (w.gameState.score : ℤ) :: w.saved }
  else w

def rectIntersect (r1 r2 : Rect) : Bool :=
  !(decide (r2.x > r1.x + r1.w) ||
    decide (r2.x + r2.w < r1.x) ||
    decide (r2.y > r1.y + r1.h) ||
    decide (r2.y + r2.h < r1.y))

/-- The value of `Math.min(18, 10 + Math.floor(gameState.score / 4))`. -/
def iceSpeed (score : ℕ) : ℤ :=
  min 18 (10 + Rat.floor ((score : ℚ) / 4))

/-- Frame counter and shake decay, the part of `update` run in every mode. -/
def tick (w : World) : World :=
  let w := { w with gameState := { w.gameState with frames := w.gameState.frames + 1 } }
  if w.gameState.shake > 0 then
    { w with gameState := { w.gameState with shake := w.gameState.shake - 1 } }
  else w

/-- Clouds drift left and those past the left edge are dropped. -/
def moveClouds (clouds : List Cloud) : List Cloud :=
  (clouds.map fun c => { c with x := c.x - c.speed }).filter
    fun c => decide (c.x > -c.w - 100)

/-- The loop `while (clouds.length < 12) spawnCloud(true)`, given at most
`fuel` iterations; the `k`-th iteration uses draw `k`. -/
def topUp (A : Assets) (draw : ℕ → CloudDraw) : ℕ → ℕ → List Cloud → Option (List Cloud)
  | 0, _, clouds => if clouds.length < 12 then none else some clouds
  | fuel + 1, k, clouds =>
    if clouds.length < 12 then topUp A draw fuel (k + 1) (spawnCloud A (draw k) true clouds)
    else some clouds

/-- The obstacle block of `update`: advance by the speed, respawn at `x <= -200`. -/
def iceStep (A : Assets) (d : Draws) (speed : ℤ) (w : World) : World :=
  let w := { w with ice := { w.ice with x := w.ice.x - (speed : ℚ) } }
  if w.ice.x ≤ -200 then
    let hi : ℚ := max 950 (1400 - (w.gameState.score : ℚ) * 10)
    let lo : ℚ := max 800 (1100 - (w.gameState.score : ℚ) * 10)
    let w := { w with ice := { w.ice with x := lo + d.gap0 * (hi - lo) } }
    let w := { w with ice := { w.ice with x := lo + d.gap * (hi - lo) } }
    let w := { w with ice :=
      { w.ice with passed := false, img := getRandomImage A SEQ_ICE d.iceImg } }
    if !w.powerup.active && decide (d.chance < 18 / 100) &&
        (A.images "shield.png").isSome then
      { w with powerup :=
          { w.powerup with
            active := true
            x := CANVAS_W + 200 + d.px * 700
            y := 350 + d.py * 140
            speed := 16 / 10 + d.pspeed * 1 } }
    else w
  else w

/-- The width `ice.img ? ice.img.width : 50`. -/
def iceW (w : World) : ℚ :=
  match w.ice.img with
  | some img => img.width
  | none => 50

/-- The score block of `update`. -/
def scoreStep (w : World) : World :=
  if !w.ice.passed && decide (w.ice.x + iceW w < w.dolphin.x) then
    { w with
      gameState := { w.gameState with score := w.gameState.score + 1 }
      ice := { w.ice with passed := true } }
  else w

/-- The sprite `dolphin.isJumping ? images["jump6.png"] : images["swim1.png"]`. -/
def dolphinImg (A : Assets) (w : World) : Option Img :=
  if w.dolphin.isJumping then A.images "jump6.png" else A.images "swim1.png"

/-- The powerup block of `update`; `Except.error` carries the globals at the
moment `dImg.width` is read from a missing sprite. -/
def powerupStep (A : Assets) (w : World) : Except World World :=
  if w.powerup.active then
    let w := { w with powerup := { w.powerup with x := w.powerup.x - w.powerup.speed } }
    match dolphinImg A w with
    | none => .error w
    | some dImg =>
      let pRect : Rect := { x := w.powerup.x + 10, y := w.powerup.y + 10, w := 40, h := 40 }
      let dRect : Rect :=
        { x := w.dolphin.x + 10, y := w.dolphin.y + 5, w := dImg.width - 20,
          h := dImg.height - 10 }
      let w :=
        if rectIntersect pRect dRect then
          { w with powerup := { w.powerup with shieldOn := true, active := false } }
        else w
      let w :=
        if w.powerup.x < -200 then { w with powerup := { w.powerup with active := false } }
        else w
      .ok w
  else .ok w

/-- The physics block of `update`, on the dolphin record; the flag says whether
`startShake(8)` was called. -/
def dolphinPhysics (dl : Dolphin) : Dolphin × Bool :=
  if dl.isJumping then
    let dl := { dl with vy := dl.vy + GRAVITY }
    let dl := { dl with y := dl.y + dl.vy }
    if dl.y ≥ GROUND_Y then
      let dl := { dl with y := GROUND_Y, vy := 0 }
      let first := decide (dl.landingHold = 0)
      if dl.landingHold < 8 then ({ dl with landingHold := dl.landingHold + 1 }, first)
      else ({ dl with landingHold := 0, isJumping := false }, first)
    else (dl, false)
  else ({ dl with y := GROUND_Y }, false)

def dolphinStep (w : World) : World :=
  let r := dolphinPhysics w.dolphin
  let w := if r.2 then startShake 8 w else w
  { w with dolphin := r.1 }

/-- The hitbox of the dolphin used against the obstacle. -/
def dolphinHitbox (w : World) (dImg : Img) : Rect :=
  { x := w.dolphin.x + 20, y := w.dolphin.y + 10, w := dImg.width - 40, h := dImg.height - 20 }

/-- The hitbox of the obstacle. -/
def iceHitbox (w : World) (iImg : Img) : Rect :=
  { x := w.ice.x + 10, y := w.ice.y + 10, w := iImg.width - 20, h := iImg.height - 10 }

/-- The collision block of `update`. -/
def collisionStep (A : Assets) (w : World) : Except World World :=
  match w.ice.img with
  | none => .ok w
  | some iImg =>
    match dolphinImg A w with
    | none => .error w
    | some dImg =>
      if rectIntersect (dolphinHitbox w dImg) (iceHitbox w iImg) then
        if w.powerup.shieldOn then
          let w := { w with powerup := { w.powerup with shieldOn := false } }
          let w := startShake 18 w
          .ok { w with ice := { w.ice with x := w.ice.x + 180 } }
        else .ok (gameOver w)
      else .ok w

/-- The globals just before the powerup block of a PLAY frame, given the cloud
list produced by the top-up loop. -/
def afterScore (A : Assets) (d : Draws) (w : World) (clouds : List Cloud) : World :=
  let w1 := tick w
  scoreStep (iceStep A d (iceSpeed w1.gameState.score) { w1 with clouds := clouds })

def update (fuel : ℕ) (A : Assets) (d : Draws) (w : World) : Outcome :=
  let w1 := tick w
  if w1.gameState.mode = Mode.PLAY then
    match topUp A d.cloud fuel 0 (moveClouds w1.clouds) with
    | none => .diverges
    | some clouds =>
      match powerupStep A (afterScore A d w clouds) with
      | .error e => .typeError e
      | .ok w3 =>
        match collisionStep A (dolphinStep w3) with
        | .error e => .typeError e
        | .ok w4 => .done w4
  else .done w1

/-! ## Runs -/

/-- The range of `Math.random()`. -/
def unitDraw (r : ℚ) : Prop := 0 ≤ r ∧ r < 1

/-- Every draw of the record lies in the range of `Math.random()`. -/
def Draws.valid (d : Draws) : Prop :=
  (∀ k, unitDraw (d.cloud k).pick ∧ unitDraw (d.cloud k).scale ∧ unitDraw (d.cloud k).x ∧
    unitDraw (d.cloud k).y ∧ unitDraw (d.cloud k).speed) ∧
  unitDraw d.gap0 ∧ unitDraw d.gap ∧ unitDraw d.iceImg ∧ unitDraw d.chance ∧
  unitDraw d.px ∧ unitDraw d.py ∧ unitDraw d.pspeed

/-- One event of the running game: a restart, a jump request, or a frame. -/
inductive Action where
  | reset (d : Draws)
  | jump
  | frame (fuel : ℕ) (d : Draws)

/-- The globals after an event, when its handler ended. -/
def act (A : Assets) : Action → World → Option World
  | .reset d, w => some (resetGame A d w)
  | .jump, w => some (triggerJump w)
  | .frame fuel d, w => (update fuel A d w).final

def runActions (A : Assets) : List Action → World → Option World
  | [], w => some w
  | a :: rest, w => (act A a w).bind (runActions A rest)

/-- The states reachable from the initial state with stored best the integer `best0` by
`resetGame`, `triggerJump` and `update` steps. -/
inductive Reachable (A : Assets) (best0 : ℤ) : World → Prop where
  | init (stored : List ℤ) : Reachable A best0 (initialWorld (JsInt.num best0) stored)
  | step {w w' : World} (a : Action) :
      Reachable A best0 w → act A a w = some w' → Reachable A best0 w'

/-- The value that `gameOver` leaves in `best`: the score when the comparison
`score > best` holds, the old value otherwise (so NaN stays NaN). -/
def raisedBest (best : JsInt) (score : ℕ) : JsInt :=
  if best.below (score : ℤ) then JsInt.num (score : ℤ) else best

/-- The invariant behind the high-score claim: `best` is a non-negative integer,
and outside PLAY it dominates the score. -/
def BestInv (w : World) : Prop :=
  ∃ b : ℤ, w.gameState.best = JsInt.num b ∧ 0 ≤ b ∧
    (w.gameState.mode ≠ Mode.PLAY → (w.gameState.score : ℤ) ≤ b)

/-! ## Concrete data for examples -/

/-- An asset store in which every sprite is a 64 by 64 image, the size of the
placeholder that `createPlaceholder` draws. -/
def demoAssets : Assets := ⟨fun _ => some ⟨64, 64⟩⟩

def demoCloud : CloudDraw :=
  { pick := 1 / 2, scale := 1 / 2, x := 1 / 2, y := 1 / 2, speed := 1 / 2 }

/-- Every `Math.random()` call returns one half. -/
def demoDraws : Draws :=
  { cloud := fun _ => demoCloud, gap0 := 1 / 2, gap := 1 / 2, iceImg := 1 / 2,
    chance := 1 / 2, px := 1 / 2, py := 1 / 2, pspeed := 1 / 2 }

/-- The game right after START was pressed with no stored high score. -/
def demoWorld : World := resetGame demoAssets demoDraws (initialWorld (JsInt.num 0) [])

/-- Start the game, swim for 80 frames, jump, and play 27 more frames: the
dolphin clears the first obstacle. -/
def jumpScript : List Action :=
  [Action.reset demoDraws] ++ List.replicate 80 (Action.frame 12 demoDraws) ++
    [Action.jump] ++ List.replicate 27 (Action.frame 12 demoDraws)

/-- Start the game and swim into the first obstacle. -/
def crashScript : List Action :=
  [Action.reset demoDraws] ++ List.replicate 97 (Action.frame 12 demoDraws)

/-- The frame respawns the obstacle: it runs in PLAY mode and the advanced
obstacle reaches `x <= -200`. -/
def respawns (w : World) : Prop :=
  w.gameState.mode = Mode.PLAY ∧ w.ice.x - ((iceSpeed w.gameState.score : ℤ) : ℚ) ≤ -200

/-- The test of the score block, on the globals `m` it is run on. -/
def passesNow (m : World) : Prop :=
  m.ice.passed = false ∧ m.ice.x + iceW m < m.dolphin.x

/-- The score plus one while the current obstacle has not been counted. -/
def scoreCeiling (w : World) : ℕ :=
  w.gameState.score + (if w.ice.passed then 0 else 1)

/-- Every sprite of the store has a non-negative width. -/
def Assets.widthsNonneg (A : Assets) : Prop :=
  ∀ (name : String) (img : Img), A.images name = some img → 0 ≤ img.width

/-- Start the game, swim for 80 frames, jump, and play 26 more frames: the
obstacle is one frame short of having passed the dolphin. -/
def almostPassedScript : List Action :=
  [Action.reset demoDraws] ++ List.replicate 80 (Action.frame 12 demoDraws) ++
    [Action.jump] ++ List.replicate 26 (Action.frame 12 demoDraws)

/-- The globals of a PLAY frame at its collision test, that is after the cloud,
obstacle, score, powerup and physics blocks; absent when the frame does not get
that far. -/
def collisionTest (fuel : ℕ) (A : Assets) (d : Draws) (w : World) : Option World :=
  match topUp A d.cloud fuel 0 (moveClouds w.clouds) with
  | none => none
  | some clouds =>
    match powerupStep A (afterScore A d w clouds) with
    | .error _ => none
    | .ok w3 => some (dolphinStep w3)

/-- The collision test of `update` on the globals `c`: both sprites are present
and the two hitboxes intersect. -/
def collides (A : Assets) (c : World) : Bool :=
  match c.ice.img, dolphinImg A c with
  | some iImg, some dImg => rectIntersect (dolphinHitbox c dImg) (iceHitbox c iImg)
  | _, _ => false

/-- An asset store with obstacle sprites of 150 by 100, dolphin sprites of 120 by
60 and every other sprite 64 by 64. -/
def wideAssets : Assets :=
  ⟨fun name =>
    if name ∈ SEQ_ICE then some ⟨150, 100⟩
    else if name ∈ SEQ_SWIM ++ SEQ_JUMP then some ⟨120, 60⟩
    else some ⟨64, 64⟩⟩

/-- A PLAY state with the shield on, the dolphin swimming, the obstacle at
`x = 10` and a second powerup approaching the dolphin from the right. -/
def shieldWorld : World :=
  let w := resetGame wideAssets demoDraws (initialWorld (JsInt.num 0) [])
  { w with
    ice := { w.ice with x := 10 }
    powerup := { active := true, x := 204, y := 460, speed := 2, shieldOn := true } }

/-- The state `shieldWorld` without the second powerup. -/
def lastShieldWorld : World :=
  { shieldWorld with powerup := { shieldWorld.powerup with active := false } }

/-- For a frame that returned: whether the next frame reaches its collision test,
collides there, and has the given shield state there. -/
def nextFrameHits (fuel : ℕ) (A : Assets) (d : Draws) (shield : Bool) : Outcome → Bool
  | .done w1 =>
    match collisionTest fuel A d w1 with
    | some c => collides A c && (c.powerup.shieldOn == shield)
    | none => false
  | _ => false

/-- Every cloud sprite of `SEQ_CLOUD` is present in the asset store. -/
def Assets.hasClouds (A : Assets) : Prop :=
  ∀ name, name ∈ SEQ_CLOUD → (A.images name).isSome = true

/-- The draws of the event lie in the range of `Math.random()`. -/
def Action.valid : Action → Prop
  | .reset d => d.valid
  | .jump => True
  | .frame _ d => d.valid

/-- The dolphin record `n` physics blocks after a jump was triggered on the
ground at horizontal position `x`. -/
def flight (x : ℚ) (n : ℕ) : Dolphin :=
  Nat.iterate (fun dl => (dolphinPhysics dl).1) n
    { x := x, y := GROUND_Y, vy := JUMP_STRENGTH, isJumping := true, landingHold := 0 }

/-- The globals after a frame that returned; the old globals otherwise. -/
def nextWorld (fuel : ℕ) (A : Assets) (d : Draws) (w : World) : World :=
  match update fuel A d w with
  | .done w' => w'
  | _ => w

/-- The frame starts in PLAY mode and returns. -/
def frameOk (fuel : ℕ) (A : Assets) (d : Draws) (w : World) : Bool :=
  decide (w.gameState.mode = Mode.PLAY) &&
    (match update fuel A d w with
      | .done _ => true
      | _ => false)

/-- Each of the next `n` frames starts in PLAY mode and returns. -/
def framesOk (fuel : ℕ) (A : Assets) (d : Draws) : ℕ → World → Bool
  | 0, _ => true
  | n + 1, w => frameOk fuel A d w && framesOk fuel A d n (nextWorld fuel A d w)

/-! ## Asset loading -/

/-- The value of `assets.audio[key]`: never assigned, `null`, or an audio element. -/
inductive AudioSlot where
  | unset
  | null
  | element
  deriving DecidableEq

/-- The variables of `initLoad`: the counter, which image names have an entry in
`assets.images`, the audio entries, and how many times the timer that switches to
COVER and starts `loop` has been scheduled. -/
structure Loader where
  loadedCount : ℕ
  images : String → Bool
  audio : String → AudioSlot
  scheduled : ℕ

def imgList : List String :=
  IMAGES_TO_LOAD ++ SEQ_SWIM ++ SEQ_JUMP ++ SEQ_WATER ++ SEQ_ICE ++ SEQ_CLOUD

def totalAssets : ℕ := imgList.length + AUDIO_TO_LOAD.length

def initLoader : Loader :=
  { loadedCount := 0, images := fun _ => false, audio := fun _ => AudioSlot.unset,
    scheduled := 0 }

def updateProgress (s : Loader) : Loader :=
  let s := { s with loadedCount := s.loadedCount + 1 }
  if s.loadedCount ≥ totalAssets then { s with scheduled := s.scheduled + 1 } else s

/-- A completion event of one asset. -/
inductive LoadEvent where
  | imgLoad (fname : String)
  | imgError (fname : String)
  | canplaythrough (key : String)
  | audioError (key : String)
  | audioTimeout (key : String)

/-- The five callbacks installed by `initLoad`. -/
def handleLoad : LoadEvent → Loader → Loader
  | .imgLoad fname, s =>
    updateProgress { s with images := fun n => if n = fname then true else s.images n }
  | .imgError fname, s =>
    updateProgress { s with images := fun n => if n = fname then true else s.images n }
  | .canplaythrough key, s =>
    if s.audio key ≠ AudioSlot.element then
      updateProgress
        { s with audio := fun k => if k = key then AudioSlot.element else s.audio k }
    else s
  | .audioError key, s =>
    updateProgress { s with audio := fun k => if k = key then AudioSlot.null else s.audio k }
  | .audioTimeout key, s =>
    if s.audio key ≠ AudioSlot.element ∧ s.audio key ≠ AudioSlot.null then
      updateProgress
        { s with audio := fun k => if k = key then AudioSlot.element else s.audio k }
    else s

def runLoad (events : List LoadEvent) (s : Loader) : Loader :=
  events.foldl (fun s e => handleLoad e s) s

/-- Every image loads, the five other sounds become playable, and for `hit` the
2-second fallback fires before the request fails. -/
def slowFailureEvents : List LoadEvent :=
  imgList.map LoadEvent.imgLoad ++
    [LoadEvent.canplaythrough "bgmusic", LoadEvent.canplaythrough "jump",
     LoadEvent.canplaythrough "splash", LoadEvent.canplaythrough "gameover",
     LoadEvent.canplaythrough "shield", LoadEvent.audioTimeout "hit",
     LoadEvent.audioError "hit"]


/-! ## The hitboxes in words -/

/-- The rectangle covered by a sprite drawn with its top-left corner at `(x, y)`. -/
def spriteRect (x y : ℚ) (img : Img) : Rect :=
  { x := x, y := y, w := img.width, h := img.height }

/-- The rectangle `r` with its left, right, top and bottom sides moved inwards
by the given amounts. -/
def insetSides (r : Rect) (left right top bottom : ℚ) : Rect :=
  { x := r.x + left, y := r.y + top, w := r.w - left - right, h := r.h - top - bottom }

/-- The collision test with both sprite rectangles inset on all four sides: the
dolphin by 20 px left and right and 10 px top and bottom, the obstacle by 10 px
on every side. -/
def insetAllSidesCollides (A : Assets) (c : World) : Bool :=
  match c.ice.img, dolphinImg A c with
  | some iImg, some dImg =>
    rectIntersect (insetSides (spriteRect c.dolphin.x c.dolphin.y dImg) 20 20 10 10)
      (insetSides (spriteRect c.ice.x c.ice.y iImg) 10 10 10 10)
  | _, _ => false

/-- Start the game and swim for 96 frames: the next frame is the one in which the
first obstacle reaches the dolphin. -/
def almostCrashScript : List Action :=
  [Action.reset demoDraws] ++ List.replicate 96 (Action.frame 12 demoDraws)

/-- For a state `w` reached by a script: the facts checked on the next frame,
namely that `w` is in PLAY mode, that the frame reaches its collision test with
both sprites 64 by 64 and the dolphin swimming on the ground at `x = 100` with the
obstacle at `(130, 450)`, that `update` ends in OVER, that the code's test holds,
and that the test inset on all sides does not. -/
def crashFacts (A : Assets) (d : Draws) (start : Option World) : Option (List Bool) :=
  start.bind fun w =>
    (collisionTest 12 A d w).map fun c =>
      [decide (w.gameState.mode = Mode.PLAY),
       decide (c.ice.img = some ⟨64, 64⟩),
       decide (dolphinImg A c = some ⟨64, 64⟩),
       decide (c.dolphin.x = 100 ∧ c.dolphin.y = 500 ∧ c.dolphin.isJumping = false),
       decide (c.ice.x = 130 ∧ c.ice.y = 450),
       (match update 12 A d w with
         | .done w' => decide (w'.gameState.mode = Mode.OVER)
         | _ => false),
       collides A c,
       !insetAllSidesCollides A c]

/-- The run `jumpScript` followed by 134 frames of swimming: the first obstacle
is cleared, respawns, and reaches the dolphin again. -/
def secondCrashScript : List Action :=
  jumpScript ++ List.replicate 134 (Action.frame 12 demoDraws)

/-! ## Frame lemmas for the blocks of `update` -/

theorem rat_floor_div_four (n : ℕ) : Rat.floor ((n : ℚ) / 4) = ((n / 4 : ℕ) : ℤ) := by
  have h := Rat.floor_intCast_div_natCast (n : ℤ) 4
  simpa using h

theorem iceSpeed_eq (score : ℕ) : iceSpeed score = ((min 18 (10 + score / 4) : ℕ) : ℤ) := by
  unfold iceSpeed
  rw [rat_floor_div_four]
  omega

theorem tick_gameState (w : World) :
    (tick w).gameState =
      { w.gameState with frames := w.gameState.frames + 1, shake := w.gameState.shake - 1 } := by
  unfold tick
  by_cases h : w.gameState.shake > 0
  · simp [h]
  · have h0 : w.gameState.shake = 0 := by omega
    simp [h0]

theorem tick_rest (w : World) :
    (tick w).dolphin = w.dolphin ∧ (tick w).clouds = w.clouds ∧ (tick w).ice = w.ice ∧
      (tick w).powerup = w.powerup ∧ (tick w).saved = w.saved := by
  unfold tick
  by_cases h : w.gameState.shake > 0 <;> simp [h]

theorem iceStep_rest (A : Assets) (d : Draws) (v : ℤ) (w : World) :
    (iceStep A d v w).gameState = w.gameState ∧ (iceStep A d v w).dolphin = w.dolphin ∧
      (iceStep A d v w).clouds = w.clouds ∧ (iceStep A d v w).saved = w.saved ∧
      (iceStep A d v w).ice.y = w.ice.y ∧
      (iceStep A d v w).powerup.shieldOn = w.powerup.shieldOn := by
  unfold iceStep
  simp only
  split_ifs <;> simp

theorem iceStep_stay (A : Assets) (d : Draws) (v : ℤ) (w : World)
    (h : -200 < w.ice.x - (v : ℚ)) :
    iceStep A d v w = { w with ice := { w.ice with x := w.ice.x - (v : ℚ) } } := by
  unfold iceStep
  simp only
  rw [if_neg (not_le.mpr h)]


theorem scoreStep_rest (w : World) :
    (scoreStep w).gameState.mode = w.gameState.mode ∧
      (scoreStep w).gameState.best = w.gameState.best ∧
      (scoreStep w).gameState.frames = w.gameState.frames ∧
      (scoreStep w).gameState.shake = w.gameState.shake ∧
      (scoreStep w).dolphin = w.dolphin ∧ (scoreStep w).clouds = w.clouds ∧
      (scoreStep w).powerup = w.powerup ∧ (scoreStep w).saved = w.saved ∧
      (scoreStep w).ice.x = w.ice.x ∧ (scoreStep w).ice.y = w.ice.y ∧
      (scoreStep w).ice.img = w.ice.img := by
  unfold scoreStep
  split_ifs <;> simp

/-- The powerup block touches the powerup record only, whether it returns or throws. -/
theorem powerupStep_rest (A : Assets) (w r : World)
    (h : powerupStep A w = .ok r ∨ powerupStep A w = .error r) :
    r.gameState = w.gameState ∧ r.dolphin = w.dolphin ∧ r.clouds = w.clouds ∧
      r.ice = w.ice ∧ r.saved = w.saved := by
  unfold powerupStep at h
  by_cases ha : w.powerup.active = true
  · simp only [ha, if_true] at h
    split at h
    · rcases h with h | h
      · cases h
      · injection h with h; subst h; simp
    · rcases h with h | h
      · injection h with h; subst h
        split_ifs <;> simp
      · cases h
  · simp only [ha] at h
    rcases h with h | h
    · simp at h; subst h; simp
    · simp at h

/-- The powerup block never switches the shield off. -/
theorem powerupStep_shield (A : Assets) (w r : World) (h : powerupStep A w = .ok r)
    (hs : w.powerup.shieldOn = true) : r.powerup.shieldOn = true := by
  unfold powerupStep at h
  by_cases ha : w.powerup.active = true
  · simp only [ha, if_true] at h
    split at h
    · cases h
    · injection h with h; subst h
      split_ifs <;> simp [hs]
  · simp only [ha] at h
    simp at h; subst h; exact hs

theorem dolphinStep_rest (w : World) :
    (dolphinStep w).gameState.mode = w.gameState.mode ∧
      (dolphinStep w).gameState.score = w.gameState.score ∧
      (dolphinStep w).gameState.best = w.gameState.best ∧
      (dolphinStep w).gameState.frames = w.gameState.frames ∧
      (dolphinStep w).clouds = w.clouds ∧ (dolphinStep w).ice = w.ice ∧
      (dolphinStep w).powerup = w.powerup ∧ (dolphinStep w).saved = w.saved ∧
      (dolphinStep w).dolphin = (dolphinPhysics w.dolphin).1 := by
  unfold dolphinStep startShake
  simp only
  split_ifs <;> simp

theorem collisionStep_error (A : Assets) (w r : World) (h : collisionStep A w = .error r) :
    r = w := by
  unfold collisionStep at h
  split at h
  · cases h
  · split at h
    · injection h with h; exact h.symm
    · split_ifs at h

theorem gameOver_rest (w : World) :
    (gameOver w).gameState.mode = Mode.OVER ∧ (gameOver w).gameState.shake = 24 ∧
      (gameOver w).gameState.score = w.gameState.score ∧
      (gameOver w).gameState.frames = w.gameState.frames ∧
      (gameOver w).gameState.best = raisedBest w.gameState.best w.gameState.score ∧
      (gameOver w).dolphin = w.dolphin ∧ (gameOver w).ice = w.ice ∧
      (gameOver w).powerup = w.powerup ∧ (gameOver w).clouds = w.clouds := by
  unfold gameOver startShake raisedBest
  simp only
  split_ifs with h <;> simp

/-- What the collision block leaves alone when it returns. -/
theorem collisionStep_rest (A : Assets) (w r : World) (h : collisionStep A w = .ok r) :
    r.gameState.score = w.gameState.score ∧ r.gameState.frames = w.gameState.frames ∧
      r.dolphin = w.dolphin ∧ r.clouds = w.clouds ∧ r.ice.passed = w.ice.passed ∧
      r.ice.img = w.ice.img ∧
      (r.ice.x = w.ice.x ∨ r.ice.x = w.ice.x + 180) ∧
      (r.gameState.mode = w.gameState.mode ∧ r.gameState.best = w.gameState.best ∨
        r.gameState.mode = Mode.OVER ∧
          r.gameState.best = raisedBest w.gameState.best w.gameState.score) := by
  unfold collisionStep at h
  split at h
  · injection h with h; subst h; simp
  · split at h
    · cases h
    · split_ifs at h
      · injection h with h; subst h; simp [startShake]
      · injection h with h; subst h
        have g := gameOver_rest w
        simp [g]
      · injection h with h; subst h; simp


/-- How a PLAY frame that ends was put together from its blocks. -/
theorem update_play_final {fuel : ℕ} {A : Assets} {d : Draws} {w w' : World}
    (hm : w.gameState.mode = Mode.PLAY) (h : (update fuel A d w).final = some w') :
    ∃ clouds, topUp A d.cloud fuel 0 (moveClouds w.clouds) = some clouds ∧
      (powerupStep A (afterScore A d w clouds) = .error w' ∨
        ∃ w3, powerupStep A (afterScore A d w clouds) = .ok w3 ∧
          (collisionStep A (dolphinStep w3) = .error w' ∨
            collisionStep A (dolphinStep w3) = .ok w')) := by
  unfold update at h
  have hm1 : (tick w).gameState.mode = Mode.PLAY := by rw [tick_gameState]; exact hm
  simp only [hm1, if_true, (tick_rest w).2.1] at h
  cases hc : topUp A d.cloud fuel 0 (moveClouds w.clouds) with
  | none => simp [hc, Outcome.final] at h
  | some clouds =>
    refine ⟨clouds, rfl, ?_⟩
    simp only [hc] at h
    cases hp : powerupStep A (afterScore A d w clouds) with
    | error e =>
      simp only [hp, Outcome.final, Option.some.injEq] at h
      left; rw [h]
    | ok w3 =>
      simp only [hp] at h
      right
      refine ⟨w3, rfl, ?_⟩
      cases hk : collisionStep A (dolphinStep w3) with
      | error e =>
        simp only [hk, Outcome.final, Option.some.injEq] at h
        left; rw [h]
      | ok w4 =>
        simp only [hk, Outcome.final, Option.some.injEq] at h
        right; rw [h]

theorem update_not_play (fuel : ℕ) (A : Assets) (d : Draws) (w : World)
    (hm : w.gameState.mode ≠ Mode.PLAY) : update fuel A d w = .done (tick w) := by
  unfold update
  have hm1 : ¬ (tick w).gameState.mode = Mode.PLAY := by rw [tick_gameState]; exact hm
  simp only [hm1, if_false]

/-- The fields of the globals just before the powerup block. -/
theorem afterScore_rest (A : Assets) (d : Draws) (w : World) (clouds : List Cloud) :
    (afterScore A d w clouds).gameState.mode = w.gameState.mode ∧
      (afterScore A d w clouds).gameState.best = w.gameState.best ∧
      (afterScore A d w clouds).gameState.frames = w.gameState.frames + 1 ∧
      (afterScore A d w clouds).dolphin = w.dolphin ∧
      (afterScore A d w clouds).clouds = clouds ∧
      (afterScore A d w clouds).saved = w.saved ∧
      (afterScore A d w clouds).powerup.shieldOn = w.powerup.shieldOn := by
  unfold afterScore
  simp only
  have hs := scoreStep_rest
    (iceStep A d (iceSpeed (tick w).gameState.score) { tick w with clouds := clouds })
  have hi := iceStep_rest A d (iceSpeed (tick w).gameState.score) { tick w with clouds := clouds }
  have ht := tick_rest w
  have hg := tick_gameState w
  obtain ⟨s1, s2, s3, s4, s5, s6, s7, s8, s9, s10, s11⟩ := hs
  obtain ⟨i1, i2, i3, i4, i5, i6⟩ := hi
  obtain ⟨t1, t2, t3, t4, t5⟩ := ht
  refine ⟨?_, ?_, ?_, ?_, ?_, ?_, ?_⟩
  · rw [s1, i1]; simp [hg]
  · rw [s2, i1]; simp [hg]
  · rw [s3, i1]; simp [hg]
  · rw [s5, i2]; simp [t1]
  · rw [s6, i3]
  · rw [s8, i4]; simp [t5]
  · rw [s7, i6]; simp [t4]


/-- The obstacle position before the powerup block of a frame without respawn. -/
theorem afterScore_ice_x_stay (A : Assets) (d : Draws) (w : World) (clouds : List Cloud)
    (h : -200 < w.ice.x - ((iceSpeed w.gameState.score : ℤ) : ℚ)) :
    (afterScore A d w clouds).ice.x = w.ice.x - ((iceSpeed w.gameState.score : ℤ) : ℚ) := by
  unfold afterScore
  simp only
  have hsc : (tick w).gameState.score = w.gameState.score := by rw [tick_gameState]
  have hice : (tick w).ice = w.ice := (tick_rest w).2.2.1
  rw [(scoreStep_rest _).2.2.2.2.2.2.2.2.1, hsc, iceStep_stay]
  · simp [hice]
  · simpa [hice] using h

/-- The final obstacle position of a PLAY frame in terms of the position before
the powerup block. -/
theorem update_ice_x {fuel : ℕ} {A : Assets} {d : Draws} {w w' : World}
    (hm : w.gameState.mode = Mode.PLAY) (h : (update fuel A d w).final = some w') :
    ∃ clouds, w'.ice.x = (afterScore A d w clouds).ice.x ∨
      w'.ice.x = (afterScore A d w clouds).ice.x + 180 := by
  obtain ⟨clouds, _, hp⟩ := update_play_final hm h
  refine ⟨clouds, ?_⟩
  rcases hp with hp | ⟨w3, hp, hk⟩
  · left; rw [(powerupStep_rest A _ _ (Or.inr hp)).2.2.2.1]
  · have h3 := (powerupStep_rest A _ _ (Or.inl hp)).2.2.2.1
    have h4 := (dolphinStep_rest w3).2.2.2.2.2.1
    rcases hk with hk | hk
    · left; rw [collisionStep_error A _ _ hk, h4, h3]
    · have h5 := (collisionStep_rest A _ _ hk).2.2.2.2.2.2.1
      rw [h4, h3] at h5
      exact h5

/-- C1: the obstacle speed of a PLAY frame is `min(18, 10 + floor(score/4))`:
the source expression equals that formula for every score, a PLAY frame that
does not respawn the obstacle moves it left by exactly that amount (up to the
180 px push-back of a shielded hit), the speed is non-decreasing in the score
and at most 18, and scores 0, 16, 40, 100 give 10, 14, 18, 18. -/
theorem iceSpeed_curve :
    (∀ score : ℕ, iceSpeed score = ((min 18 (10 + score / 4) : ℕ) : ℤ)) ∧
    (∀ (fuel : ℕ) (A : Assets) (d : Draws) (w w' : World),
      w.gameState.mode = Mode.PLAY → (update fuel A d w).final = some w' →
      -200 < w.ice.x - ((min 18 (10 + w.gameState.score / 4) : ℕ) : ℚ) →
      (w'.ice.x = w.ice.x - ((min 18 (10 + w.gameState.score / 4) : ℕ) : ℚ) ∨
        w'.ice.x = w.ice.x - ((min 18 (10 + w.gameState.score / 4) : ℕ) : ℚ) + 180)) ∧
    (∀ s t : ℕ, s ≤ t → iceSpeed s ≤ iceSpeed t) ∧
    (∀ s : ℕ, iceSpeed s ≤ 18) ∧
    iceSpeed 0 = 10 ∧ iceSpeed 16 = 14 ∧ iceSpeed 40 = 18 ∧ iceSpeed 100 = 18 := by
  refine ⟨iceSpeed_eq, ?_, ?_, ?_, ?_, ?_, ?_, ?_⟩
  · intro fuel A d w w' hm h hx
    have hv : ((iceSpeed w.gameState.score : ℤ) : ℚ) =
        ((min 18 (10 + w.gameState.score / 4) : ℕ) : ℚ) := by
      rw [iceSpeed_eq]; norm_cast
    rw [← hv] at hx ⊢
    obtain ⟨clouds, hc⟩ := update_ice_x hm h
    rw [afterScore_ice_x_stay A d w clouds hx] at hc
    exact hc
  · intro s t hst
    rw [iceSpeed_eq, iceSpeed_eq]
    have : s / 4 ≤ t / 4 := Nat.div_le_div_right hst
    omega
  · intro s
    rw [iceSpeed_eq]
    omega
  · rw [iceSpeed_eq]; norm_num
  · rw [iceSpeed_eq]; norm_num
  · rw [iceSpeed_eq]; norm_num
  · rw [iceSpeed_eq]; norm_num


theorem triggerJump_rest (w : World) :
    (triggerJump w).gameState = w.gameState ∧ (triggerJump w).clouds = w.clouds ∧
      (triggerJump w).ice = w.ice ∧ (triggerJump w).powerup = w.powerup ∧
      (triggerJump w).saved = w.saved ∧ (triggerJump w).dolphin.x = w.dolphin.x ∧
      (triggerJump w).dolphin.y = w.dolphin.y := by
  unfold triggerJump
  split_ifs <;> simp

/-- The mode and best score at the end of a PLAY frame: either the frame stays
in PLAY with `best` untouched, or it ends in OVER with `best` raised to the
final score when that is larger. -/
theorem update_play_mode_best {fuel : ℕ} {A : Assets} {d : Draws} {w w' : World}
    (hm : w.gameState.mode = Mode.PLAY) (h : (update fuel A d w).final = some w') :
    (w'.gameState.mode = Mode.PLAY ∧ w'.gameState.best = w.gameState.best) ∨
      (w'.gameState.mode = Mode.OVER ∧
        w'.gameState.best = raisedBest w.gameState.best w'.gameState.score) := by
  obtain ⟨clouds, _, hp⟩ := update_play_final hm h
  have ha := afterScore_rest A d w clouds
  rcases hp with hp | ⟨w3, hp, hk⟩
  · left
    rw [(powerupStep_rest A _ _ (Or.inr hp)).1]
    exact ⟨ha.1.trans hm, ha.2.1⟩
  · have h3 := (powerupStep_rest A _ _ (Or.inl hp)).1
    have h4 := dolphinStep_rest w3
    have hmode : (dolphinStep w3).gameState.mode = Mode.PLAY := by
      rw [h4.1, h3, ha.1, hm]
    have hbest : (dolphinStep w3).gameState.best = w.gameState.best := by
      rw [h4.2.2.1, h3, ha.2.1]
    rcases hk with hk | hk
    · left
      rw [collisionStep_error A _ _ hk]
      exact ⟨hmode, hbest⟩
    · have h5 := collisionStep_rest A _ _ hk
      rcases h5.2.2.2.2.2.2.2 with ⟨e1, e2⟩ | ⟨e1, e2⟩
      · left; exact ⟨e1.trans hmode, e2.trans hbest⟩
      · right
        refine ⟨e1, ?_⟩
        rw [e2, hbest, h5.1]

theorem raisedBest_num (b : ℤ) (score : ℕ) :
    raisedBest (JsInt.num b) score = JsInt.num (max b (score : ℤ)) := by
  unfold raisedBest JsInt.below
  by_cases h : (score : ℤ) > b
  · simp [h, max_eq_right (le_of_lt h)]
  · simp [h, max_eq_left (not_lt.mp h)]

theorem act_bestInv {A : Assets} {a : Action} {w w' : World} (h : act A a w = some w')
    (hinv : BestInv w) : BestInv w' := by
  obtain ⟨b, hb, h0, h1⟩ := hinv
  cases a with
  | reset d =>
    simp only [act, Option.some.injEq] at h
    subst h
    exact ⟨b, by simpa [resetGame] using hb, h0, fun hne => absurd (by simp [resetGame]) hne⟩
  | jump =>
    simp only [act, Option.some.injEq] at h
    subst h
    unfold BestInv
    rw [(triggerJump_rest w).1]
    exact ⟨b, hb, h0, h1⟩
  | frame fuel d =>
    simp only [act] at h
    by_cases hm : w.gameState.mode = Mode.PLAY
    · rcases update_play_mode_best hm h with ⟨e1, e2⟩ | ⟨e1, e2⟩
      · exact ⟨b, by rw [e2]; exact hb, h0, fun hne => absurd e1 hne⟩
      · rw [hb, raisedBest_num] at e2
        exact ⟨max b (w'.gameState.score : ℤ), e2, le_max_of_le_left h0,
          fun _ => le_max_right _ _⟩
    · rw [update_not_play fuel A d w hm] at h
      simp only [Outcome.final, Option.some.injEq] at h
      subst h
      unfold BestInv
      rw [tick_gameState]
      exact ⟨b, hb, h0, fun hne => h1 hne⟩

theorem reachable_bestInv {A : Assets} {best0 : ℤ} {w : World} (h0 : 0 ≤ best0)
    (hr : Reachable A best0 w) : BestInv w := by
  induction hr with
  | init stored => exact ⟨best0, rfl, h0, fun _ => by simpa [initialWorld] using h0⟩
  | step a _ hact ih => exact act_bestInv hact ih

theorem runActions_reachable {A : Assets} {best0 : ℤ} (l : List Action) :
    ∀ {w w' : World}, Reachable A best0 w → runActions A l w = some w' →
      Reachable A best0 w' := by
  induction l with
  | nil =>
    intro w w' hr h
    simp only [runActions, Option.some.injEq] at h
    subst h; exact hr
  | cons a rest ih =>
    intro w w' hr h
    simp only [runActions] at h
    cases ha : act A a w with
    | none => simp [ha] at h
    | some w1 =>
      simp only [ha, Option.some_bind] at h
      exact ih (Reachable.step a hr ha) h


/-- C1, concrete instance: the first frame after a restart (score 0, obstacle at
1100) moves the obstacle to 1090. -/
theorem iceSpeed_curve_witness :
    ∃ w', (update 12 demoAssets demoDraws demoWorld).final = some w' ∧
      (w'.ice.x = demoWorld.ice.x - ((min 18 (10 + demoWorld.gameState.score / 4) : ℕ) : ℚ) ∨
        w'.ice.x =
          demoWorld.ice.x - ((min 18 (10 + demoWorld.gameState.score / 4) : ℕ) : ℚ) + 180) := by
  have hs : ((update 12 demoAssets demoDraws demoWorld).final).isSome = true := by decide!
  obtain ⟨w', hw⟩ := Option.isSome_iff_exists.mp hs
  exact ⟨w', hw, iceSpeed_curve.2.1 12 demoAssets demoDraws demoWorld w' (by decide!) hw
    (by decide!)⟩

/-- C2 as stated fails: after START, 80 frames, a jump and 27 more frames the
dolphin has cleared the first obstacle, so the reachable state has score 1 while
best is still 0. -/
theorem best_ge_score_counterexample :
    ∃ w, runActions demoAssets jumpScript (initialWorld (JsInt.num 0) []) = some w ∧
      Reachable demoAssets 0 w ∧ w.gameState.mode = Mode.PLAY ∧
      w.gameState.score = 1 ∧ w.gameState.best = JsInt.num 0 ∧
      ¬ ∃ b : ℤ, w.gameState.best = JsInt.num b ∧ (w.gameState.score : ℤ) ≤ b := by
  have hs : (runActions demoAssets jumpScript (initialWorld (JsInt.num 0) [])).map
      (fun w => (w.gameState.mode, w.gameState.score, w.gameState.best)) =
      some (Mode.PLAY, 1, JsInt.num 0) := by decide!
  cases hw : runActions demoAssets jumpScript (initialWorld (JsInt.num 0) []) with
  | none => simp [hw] at hs
  | some w =>
    simp only [hw, Option.map_some', Option.some.injEq, Prod.mk.injEq] at hs
    obtain ⟨h1, h2, h3⟩ := hs
    refine ⟨w, rfl, runActions_reachable jumpScript (Reachable.init []) hw, h1, h2, h3, ?_⟩
    rintro ⟨b, hb, hle⟩
    rw [h3] at hb
    injection hb with hb
    rw [h2, ← hb] at hle
    exact absurd hle (by decide)

/-- C2, amended: in every state reachable from the initial state (score 0, stored
best at least 0) by `resetGame`, `triggerJump` and `update` steps, `best >= score`
holds whenever the mode is not PLAY: `best` is an integer there, and it is at
least the score. -/
theorem best_ge_score_outside_play (A : Assets) (best0 : ℤ) (w : World) (h0 : 0 ≤ best0)
    (hr : Reachable A best0 w) (hm : w.gameState.mode ≠ Mode.PLAY) :
    ∃ b : ℤ, w.gameState.best = JsInt.num b ∧ (w.gameState.score : ℤ) ≤ b := by
  obtain ⟨b, hb, _, hle⟩ := reachable_bestInv h0 hr
  exact ⟨b, hb, hle hm⟩

/-- C2, amended, concrete instance: swimming into the first obstacle ends in a
reachable OVER state, where best is at least the score. -/
theorem best_ge_score_outside_play_witness :
    ∃ w, runActions demoAssets crashScript (initialWorld (JsInt.num 0) []) = some w ∧
      w.gameState.mode = Mode.OVER ∧
      ∃ b : ℤ, w.gameState.best = JsInt.num b ∧ (w.gameState.score : ℤ) ≤ b := by
  have hs : (runActions demoAssets crashScript (initialWorld (JsInt.num 0) [])).map
      (fun w => w.gameState.mode) = some Mode.OVER := by decide!
  cases hw : runActions demoAssets crashScript (initialWorld (JsInt.num 0) []) with
  | none => simp [hw] at hs
  | some w =>
    simp only [hw, Option.map_some', Option.some.injEq] at hs
    exact ⟨w, rfl, hs, best_ge_score_outside_play demoAssets 0 w (le_refl 0)
      (runActions_reachable crashScript (Reachable.init []) hw) (by rw [hs]; decide)⟩


/-- The obstacle block reads the obstacle, the score and the powerup only, so
its effect on the obstacle is the same on any two states that agree there. -/
theorem iceStep_ice_congr (A : Assets) (d : Draws) (v : ℤ) (w1 w2 : World)
    (hi : w1.ice = w2.ice) (hs : w1.gameState.score = w2.gameState.score) :
    (iceStep A d v w1).ice = (iceStep A d v w2).ice := by
  unfold iceStep
  simp only [hi, hs]
  split_ifs <;> simp

theorem scoreStep_score (m : World) :
    (passesNow m → (scoreStep m).gameState.score = m.gameState.score + 1 ∧
      (scoreStep m).ice.passed = true) ∧
    (¬ passesNow m → (scoreStep m).gameState.score = m.gameState.score ∧
      (scoreStep m).ice.passed = m.ice.passed) := by
  unfold scoreStep passesNow
  constructor
  · rintro ⟨h1, h2⟩
    simp [h1, h2]
  · intro h
    by_cases h1 : m.ice.passed = false
    · have h2 : ¬ m.ice.x + iceW m < m.dolphin.x := fun h2 => h ⟨h1, h2⟩
      simp [h1, h2]
    · simp at h1
      simp [h1]

/-- The score test of a PLAY frame is the one on the state the obstacle block
yields from the frame's start state. -/
theorem afterScore_passes (A : Assets) (d : Draws) (w : World) (clouds : List Cloud) :
    (passesNow (iceStep A d (iceSpeed w.gameState.score) w) →
      (afterScore A d w clouds).gameState.score = w.gameState.score + 1 ∧
        (afterScore A d w clouds).ice.passed = true) ∧
    (¬ passesNow (iceStep A d (iceSpeed w.gameState.score) w) →
      (afterScore A d w clouds).gameState.score = w.gameState.score ∧
        (afterScore A d w clouds).ice.passed =
          (iceStep A d (iceSpeed w.gameState.score) w).ice.passed) := by
  have hsc : (tick w).gameState.score = w.gameState.score := by rw [tick_gameState]
  have hice : (tick w).ice = w.ice := (tick_rest w).2.2.1
  have hdol : (tick w).dolphin = w.dolphin := (tick_rest w).1
  set m1 := iceStep A d (iceSpeed w.gameState.score) { tick w with clouds := clouds } with hm1
  set m := iceStep A d (iceSpeed w.gameState.score) w with hm
  have e1 : m1.ice = m.ice :=
    iceStep_ice_congr A d _ _ _ (by simp [hice]) (by simp [hsc])
  have e2 : m1.dolphin = m.dolphin := by
    rw [hm1, hm, (iceStep_rest A d _ _).2.1, (iceStep_rest A d _ _).2.1]; simp [hdol]
  have e3 : m1.gameState.score = w.gameState.score := by
    rw [hm1, (iceStep_rest A d _ _).1]; simp [hsc]
  have e4 : passesNow m1 ↔ passesNow m := by
    unfold passesNow iceW
    rw [e1, e2]
  have ha : afterScore A d w clouds = scoreStep m1 := by
    unfold afterScore; simp only [hsc, hm1]
  rw [ha]
  have hs := scoreStep_score m1
  constructor
  · intro hp
    have := hs.1 (e4.mpr hp)
    rw [e3] at this
    exact this
  · intro hp
    have := hs.2 (fun h => hp (e4.mp h))
    rw [e3, e1] at this
    exact this

/-- After the score block, a frame changes neither the score nor the passed flag. -/
theorem update_play_score {fuel : ℕ} {A : Assets} {d : Draws} {w w' : World}
    (hm : w.gameState.mode = Mode.PLAY) (h : (update fuel A d w).final = some w') :
    ∃ clouds, w'.gameState.score = (afterScore A d w clouds).gameState.score ∧
      w'.ice.passed = (afterScore A d w clouds).ice.passed := by
  obtain ⟨clouds, _, hp⟩ := update_play_final hm h
  refine ⟨clouds, ?_⟩
  rcases hp with hp | ⟨w3, hp, hk⟩
  · have h3 := powerupStep_rest A _ _ (Or.inr hp)
    rw [h3.1, h3.2.2.2.1]; exact ⟨rfl, rfl⟩
  · have h3 := powerupStep_rest A _ _ (Or.inl hp)
    have h4 := dolphinStep_rest w3
    rcases hk with hk | hk
    · rw [collisionStep_error A _ _ hk, h4.2.1, h4.2.2.2.2.2.1, h3.1, h3.2.2.2.1]
      exact ⟨rfl, rfl⟩
    · have h5 := collisionStep_rest A _ _ hk
      rw [h5.1, h5.2.2.2.2.1, h4.2.1, h4.2.2.2.2.2.1, h3.1, h3.2.2.2.1]
      exact ⟨rfl, rfl⟩


theorem iceStep_respawn (A : Assets) (d : Draws) (v : ℤ) (w : World)
    (h : w.ice.x - (v : ℚ) ≤ -200) (hg : 0 ≤ d.gap) :
    800 ≤ (iceStep A d v w).ice.x ∧
      (iceStep A d v w).ice.img = getRandomImage A SEQ_ICE d.iceImg ∧
      (iceStep A d v w).ice.passed = false := by
  unfold iceStep
  simp only [h, if_true]
  have hlo : (800 : ℚ) ≤ max 800 (1100 - (w.gameState.score : ℚ) * 10) := le_max_left _ _
  have hhi : max 800 (1100 - (w.gameState.score : ℚ) * 10) ≤
      max 950 (1400 - (w.gameState.score : ℚ) * 10) :=
    max_le_max (by norm_num) (by linarith)
  have hx : (800 : ℚ) ≤ max 800 (1100 - (w.gameState.score : ℚ) * 10) +
      d.gap * (max 950 (1400 - (w.gameState.score : ℚ) * 10) -
        max 800 (1100 - (w.gameState.score : ℚ) * 10)) := by
    have := mul_nonneg hg (sub_nonneg.mpr hhi)
    linarith
  split_ifs <;> exact ⟨hx, rfl, rfl⟩

theorem iceW_nonneg (A : Assets) (hA : A.widthsNonneg) (m : World) (r : ℚ)
    (h : m.ice.img = getRandomImage A SEQ_ICE r) : 0 ≤ iceW m := by
  unfold iceW
  cases hi : m.ice.img with
  | none => norm_num
  | some img =>
    simp only
    rw [hi] at h
    unfold getRandomImage at h
    cases hn : pickName SEQ_ICE r with
    | none => simp [hn] at h
    | some name =>
      simp only [hn, Option.some_bind] at h
      exact hA name img h.symm

/-- A frame that respawns the obstacle leaves it to the right of the dolphin, so
the score test fails. -/
theorem respawn_not_passes (A : Assets) (d : Draws) (w : World) (hA : A.widthsNonneg)
    (hg : 0 ≤ d.gap) (hx : w.dolphin.x = 100)
    (h : w.ice.x - ((iceSpeed w.gameState.score : ℤ) : ℚ) ≤ -200) :
    ¬ passesNow (iceStep A d (iceSpeed w.gameState.score) w) := by
  obtain ⟨h1, h2, _⟩ := iceStep_respawn A d _ w h hg
  have h3 := iceW_nonneg A hA _ _ h2
  have h4 : (iceStep A d (iceSpeed w.gameState.score) w).dolphin.x = 100 := by
    rw [(iceStep_rest A d _ w).2.1, hx]
  rintro ⟨_, hlt⟩
  rw [h4] at hlt
  linarith

/-- A frame never lowers the score, and one that does not respawn the obstacle
never raises the score ceiling. -/
theorem update_scoreCeiling {fuel : ℕ} {A : Assets} {d : Draws} {w w' : World}
    (h : (update fuel A d w).final = some w') :
    w.gameState.score ≤ w'.gameState.score ∧ (¬ respawns w → scoreCeiling w' ≤ scoreCeiling w) := by
  by_cases hm : w.gameState.mode = Mode.PLAY
  · obtain ⟨clouds, e1, e2⟩ := update_play_score hm h
    have hp := afterScore_passes A d w clouds
    by_cases hc : passesNow (iceStep A d (iceSpeed w.gameState.score) w)
    · obtain ⟨s1, s2⟩ := hp.1 hc
      refine ⟨by omega, fun hn => ?_⟩
      have hstay : -200 < w.ice.x - ((iceSpeed w.gameState.score : ℤ) : ℚ) := by
        by_contra hcon
        exact hn ⟨hm, not_lt.mp hcon⟩
      have hpass : w.ice.passed = false := by
        have := hc.1
        rw [iceStep_stay A d _ w hstay] at this
        exact this
      unfold scoreCeiling
      rw [e1, e2, s1, s2, hpass]
      simp
    · obtain ⟨s1, s2⟩ := hp.2 hc
      refine ⟨by omega, fun hn => ?_⟩
      have hstay : -200 < w.ice.x - ((iceSpeed w.gameState.score : ℤ) : ℚ) := by
        by_contra hcon
        exact hn ⟨hm, not_lt.mp hcon⟩
      unfold scoreCeiling
      rw [e1, e2, s1, s2, iceStep_stay A d _ w hstay]
  · rw [update_not_play fuel A d w hm] at h
    simp only [Outcome.final, Option.some.injEq] at h
    subst h
    unfold scoreCeiling
    rw [tick_gameState, (tick_rest w).2.2.1]
    exact ⟨le_refl _, fun _ => le_refl _⟩

/-- Along consecutive frames none of which respawns the obstacle, the score
stays under the ceiling of the first state. -/
theorem frames_scoreCeiling (A : Assets) (σ : ℕ → World) (n : ℕ)
    (h : ∀ i, i < n → ¬ respawns (σ i) ∧
      ∃ fuel d, (update fuel A d (σ i)).final = some (σ (i + 1))) :
    (σ 0).gameState.score ≤ (σ n).gameState.score ∧ scoreCeiling (σ n) ≤ scoreCeiling (σ 0) := by
  induction n with
  | zero => exact ⟨le_refl _, le_refl _⟩
  | succ k ih =>
    obtain ⟨i1, i2⟩ := ih (fun i hi => h i (Nat.lt_succ_of_lt hi))
    obtain ⟨hn, fuel, d, hu⟩ := h k (Nat.lt_succ_self k)
    obtain ⟨u1, u2⟩ := update_scoreCeiling hu
    exact ⟨le_trans i1 u1, le_trans (u2 hn) i2⟩


/-- C3: a PLAY frame that ends leaves the score unchanged or raises it by exactly
1; it raises it exactly when, on the state after the obstacle was advanced (and
respawned at `x <= -200`), `ice.passed` is false and `ice.x + iceW < dolphin.x`,
and then `ice.passed` is true afterwards.  No frame lowers the score; with
non-negative sprite widths, the dolphin at its fixed `x = 100` and a draw that is
not negative, a respawning frame does not raise the score; and over consecutive
frames without a respawn the score rises by at most 1, and not at all when the
obstacle had been counted already. -/
theorem score_once_per_pass :
    (∀ (fuel : ℕ) (A : Assets) (d : Draws) (w w' : World),
      w.gameState.mode = Mode.PLAY → (update fuel A d w).final = some w' →
      (w'.gameState.score = w.gameState.score ∨ w'.gameState.score = w.gameState.score + 1) ∧
      (w'.gameState.score = w.gameState.score + 1 ↔
        passesNow (iceStep A d (iceSpeed w.gameState.score) w)) ∧
      (w'.gameState.score = w.gameState.score + 1 → w'.ice.passed = true)) ∧
    (∀ (fuel : ℕ) (A : Assets) (d : Draws) (w w' : World),
      (update fuel A d w).final = some w' → w.gameState.score ≤ w'.gameState.score) ∧
    (∀ (fuel : ℕ) (A : Assets) (d : Draws) (w w' : World),
      A.widthsNonneg → 0 ≤ d.gap → w.dolphin.x = 100 → respawns w →
      (update fuel A d w).final = some w' → w'.gameState.score = w.gameState.score) ∧
    (∀ (A : Assets) (σ : ℕ → World) (n : ℕ),
      (∀ i, i < n → ¬ respawns (σ i) ∧
        ∃ fuel d, (update fuel A d (σ i)).final = some (σ (i + 1))) →
      (σ n).gameState.score ≤ (σ 0).gameState.score + 1 ∧
      ((σ 0).ice.passed = true → (σ n).gameState.score = (σ 0).gameState.score)) := by
  refine ⟨?_, ?_, ?_, ?_⟩
  · intro fuel A d w w' hm h
    obtain ⟨clouds, e1, e2⟩ := update_play_score hm h
    have hp := afterScore_passes A d w clouds
    by_cases hc : passesNow (iceStep A d (iceSpeed w.gameState.score) w)
    · obtain ⟨s1, s2⟩ := hp.1 hc
      rw [e1, e2, s1, s2]
      exact ⟨Or.inr rfl, ⟨fun _ => hc, fun _ => rfl⟩, fun _ => rfl⟩
    · obtain ⟨s1, _⟩ := hp.2 hc
      rw [e1, s1]
      refine ⟨Or.inl rfl, ⟨fun hcon => ?_, fun hcon => absurd hcon hc⟩, fun hcon => ?_⟩ <;> omega
  · intro fuel A d w w' h
    exact (update_scoreCeiling h).1
  · intro fuel A d w w' hA hg hx hr h
    obtain ⟨clouds, e1, _⟩ := update_play_score hr.1 h
    have hp := afterScore_passes A d w clouds
    rw [e1, (hp.2 (respawn_not_passes A d w hA hg hx hr.2)).1]
  · intro A σ n h
    obtain ⟨h1, h2⟩ := frames_scoreCeiling A σ n h
    unfold scoreCeiling at h2
    constructor
    · split_ifs at h2 <;> omega
    · intro hp
      rw [hp] at h2
      simp only [if_true] at h2
      split_ifs at h2 <;> omega

/-- C3, concrete instance: in the frame in which the first obstacle (64 wide, at
`x = 30` after the advance) gets left of the dolphin, the score goes from 0 to 1
and the test of the score block holds. -/
theorem score_once_per_pass_witness :
    ∃ w w', runActions demoAssets almostPassedScript (initialWorld (JsInt.num 0) []) = some w ∧
      (update 12 demoAssets demoDraws w).final = some w' ∧
      w.gameState.score = 0 ∧ w'.gameState.score = 1 ∧ w'.ice.passed = true ∧
      passesNow (iceStep demoAssets demoDraws (iceSpeed w.gameState.score) w) := by
  have hs : ((runActions demoAssets almostPassedScript (initialWorld (JsInt.num 0) [])).bind
      (fun w => ((update 12 demoAssets demoDraws w).final).map
        (fun w' => (w.gameState.mode, w.gameState.score, w'.gameState.score)))) =
      some (Mode.PLAY, 0, 1) := by decide!
  cases hw : runActions demoAssets almostPassedScript (initialWorld (JsInt.num 0) []) with
  | none => simp [hw] at hs
  | some w =>
    simp only [hw, Option.some_bind] at hs
    cases hw' : (update 12 demoAssets demoDraws w).final with
    | none => simp [hw'] at hs
    | some w' =>
      simp only [hw', Option.map_some', Option.some.injEq, Prod.mk.injEq] at hs
      obtain ⟨h1, h2, h3⟩ := hs
      have key := score_once_per_pass.1 12 demoAssets demoDraws w w' h1 hw'
      have hinc : w'.gameState.score = w.gameState.score + 1 := by rw [h2, h3]
      exact ⟨w, w', rfl, hw', h2, h3, key.2.2 hinc, key.2.1.mp hinc⟩


/-- C4: `triggerJump` returns the globals unchanged when the mode is not PLAY or
the dolphin is already jumping; in PLAY mode with `isJumping` false it sets
`isJumping = true`, `vy = -15` and `landingHold = 0` and nothing else: the result
is the old state with those three dolphin fields replaced, so `dolphin.x`,
`dolphin.y`, `gameState`, the obstacle, the powerup, the clouds and the stored
high score are the old ones. -/
theorem triggerJump_effect :
    (∀ w : World, (w.gameState.mode ≠ Mode.PLAY ∨ w.dolphin.isJumping = true) →
      triggerJump w = w) ∧
    (∀ w : World, w.gameState.mode = Mode.PLAY → w.dolphin.isJumping = false →
      triggerJump w =
          { w with dolphin := { w.dolphin with isJumping := true, vy := -15, landingHold := 0 } } ∧
        (triggerJump w).dolphin.isJumping = true ∧ (triggerJump w).dolphin.vy = -15 ∧
        (triggerJump w).dolphin.landingHold = 0 ∧
        (triggerJump w).dolphin.x = w.dolphin.x ∧ (triggerJump w).dolphin.y = w.dolphin.y ∧
        (triggerJump w).gameState = w.gameState ∧ (triggerJump w).ice = w.ice ∧
        (triggerJump w).powerup = w.powerup ∧ (triggerJump w).clouds = w.clouds ∧
        (triggerJump w).saved = w.saved) := by
  constructor
  · intro w h
    unfold triggerJump
    rcases h with h | h
    · simp [h]
    · simp [h]
  · intro w hm hj
    have e : triggerJump w =
        { w with dolphin := { w.dolphin with isJumping := true, vy := -15, landingHold := 0 } } := by
      unfold triggerJump JUMP_STRENGTH
      simp [hm, hj]
    refine ⟨e, ?_⟩
    rw [e]
    simp

/-- C4, concrete instance: a jump request right after START launches the dolphin,
and a second request changes nothing. -/
theorem triggerJump_effect_witness :
    (triggerJump demoWorld).dolphin.vy = -15 ∧
      triggerJump (triggerJump demoWorld) = triggerJump demoWorld :=
  ⟨(triggerJump_effect.2 demoWorld (by decide) (by decide)).2.2.1,
    triggerJump_effect.1 (triggerJump demoWorld) (Or.inr (by decide))⟩


theorem update_of_collisionTest {fuel : ℕ} {A : Assets} {d : Draws} {w c : World}
    (hm : w.gameState.mode = Mode.PLAY) (hc : collisionTest fuel A d w = some c) :
    update fuel A d w =
      (match collisionStep A c with
        | .error e => Outcome.typeError e
        | .ok w4 => Outcome.done w4) := by
  unfold update
  have hm1 : (tick w).gameState.mode = Mode.PLAY := by rw [tick_gameState]; exact hm
  simp only [hm1, if_true, (tick_rest w).2.1]
  unfold collisionTest at hc
  cases ht : topUp A d.cloud fuel 0 (moveClouds w.clouds) with
  | none => simp [ht] at hc
  | some clouds =>
    simp only [ht] at hc ⊢
    cases hp : powerupStep A (afterScore A d w clouds) with
    | error e => simp [hp] at hc
    | ok w3 =>
      simp only [hp, Option.some.injEq] at hc ⊢
      rw [hc]

/-- What the state at the collision test inherits from the start of the frame. -/
theorem collisionTest_rest {fuel : ℕ} {A : Assets} {d : Draws} {w c : World}
    (hc : collisionTest fuel A d w = some c) :
    c.gameState.mode = w.gameState.mode ∧ c.gameState.best = w.gameState.best ∧
      (w.powerup.shieldOn = true → c.powerup.shieldOn = true) := by
  unfold collisionTest at hc
  cases ht : topUp A d.cloud fuel 0 (moveClouds w.clouds) with
  | none => simp [ht] at hc
  | some clouds =>
    simp only [ht] at hc
    cases hp : powerupStep A (afterScore A d w clouds) with
    | error e => simp [hp] at hc
    | ok w3 =>
      simp only [hp, Option.some.injEq] at hc
      subst hc
      have ha := afterScore_rest A d w clouds
      have h3 := powerupStep_rest A _ _ (Or.inl hp)
      have h4 := dolphinStep_rest w3
      refine ⟨by rw [h4.1, h3.1, ha.1], by rw [h4.2.2.1, h3.1, ha.2.1], fun hs => ?_⟩
      rw [h4.2.2.2.2.2.2.1]
      exact powerupStep_shield A _ _ hp (by rw [ha.2.2.2.2.2.2]; exact hs)

theorem collisionStep_shielded (A : Assets) (c : World) (hcol : collides A c = true)
    (hs : c.powerup.shieldOn = true) :
    ∃ r, collisionStep A c = .ok r ∧ r.powerup.shieldOn = false ∧ r.ice.x = c.ice.x + 180 ∧
      r.gameState.shake = 18 ∧ r.gameState.mode = c.gameState.mode ∧
      r.gameState.best = c.gameState.best := by
  unfold collides at hcol
  unfold collisionStep
  cases hi : c.ice.img with
  | none => simp [hi] at hcol
  | some iImg =>
    cases hd : dolphinImg A c with
    | none => simp [hi, hd] at hcol
    | some dImg =>
      simp only [hi, hd] at hcol
      simp [hcol, hs, startShake]

theorem collisionStep_unshielded (A : Assets) (c : World) (hcol : collides A c = true)
    (hs : c.powerup.shieldOn = false) : collisionStep A c = .ok (gameOver c) := by
  unfold collides at hcol
  unfold collisionStep
  cases hi : c.ice.img with
  | none => simp [hi] at hcol
  | some iImg =>
    cases hd : dolphinImg A c with
    | none => simp [hi, hd] at hcol
    | some dImg =>
      simp only [hi, hd] at hcol
      simp [hcol, hs]

/-- A colliding PLAY frame with the shield on at the collision test. -/
theorem update_shielded {fuel : ℕ} {A : Assets} {d : Draws} {w c : World}
    (hm : w.gameState.mode = Mode.PLAY) (hc : collisionTest fuel A d w = some c)
    (hcol : collides A c = true) (hs : c.powerup.shieldOn = true) :
    ∃ w', update fuel A d w = .done w' ∧ w'.powerup.shieldOn = false ∧
      w'.ice.x = c.ice.x + 180 ∧ w'.gameState.shake = 18 ∧
      w'.gameState.mode = Mode.PLAY ∧ w'.gameState.best = w.gameState.best := by
  obtain ⟨r, hr, r1, r2, r3, r4, r5⟩ := collisionStep_shielded A c hcol hs
  have hrest := collisionTest_rest hc
  refine ⟨r, ?_, r1, r2, r3, by rw [r4, hrest.1, hm], by rw [r5, hrest.2.1]⟩
  rw [update_of_collisionTest hm hc, hr]

/-- A colliding PLAY frame with the shield off at the collision test. -/
theorem update_unshielded {fuel : ℕ} {A : Assets} {d : Draws} {w c : World}
    (hm : w.gameState.mode = Mode.PLAY) (hc : collisionTest fuel A d w = some c)
    (hcol : collides A c = true) (hs : c.powerup.shieldOn = false) :
    ∃ w', update fuel A d w = .done w' ∧ w'.gameState.mode = Mode.OVER := by
  refine ⟨gameOver c, ?_, (gameOver_rest c).1⟩
  rw [update_of_collisionTest hm hc, collisionStep_unshielded A c hcol hs]


theorem nextFrameHits_done {fuel : ℕ} {A : Assets} {d : Draws} {shield : Bool} {w1 : World}
    (h : nextFrameHits fuel A d shield (.done w1) = true) :
    ∃ c, collisionTest fuel A d w1 = some c ∧ collides A c = true ∧
      c.powerup.shieldOn = shield := by
  unfold nextFrameHits at h
  cases hc : collisionTest fuel A d w1 with
  | none => simp [hc] at h
  | some c =>
    simp only [hc, Bool.and_eq_true, beq_iff_eq] at h
    exact ⟨c, rfl, h.1, h.2⟩

/-- C5 as stated fails: `shieldWorld` is in PLAY mode with the shield on; its
next frame collides (obstacle hitbox 10..140, dolphin hitbox 120..200) and uses
the shield up, pushing the obstacle to 180; in the frame after that the powerup
(at `x = 200`) reaches the dolphin and switches the shield on again before the
collision test, the obstacle (hitbox 180..310) collides again, and the game is
still in PLAY mode, not OVER, after this second colliding frame. -/
theorem shield_second_hit_counterexample :
    shieldWorld.gameState.mode = Mode.PLAY ∧ shieldWorld.powerup.shieldOn = true ∧
    ∃ c1 w1 c2 w2,
      collisionTest 12 wideAssets demoDraws shieldWorld = some c1 ∧
      collides wideAssets c1 = true ∧
      update 12 wideAssets demoDraws shieldWorld = .done w1 ∧
      collisionTest 12 wideAssets demoDraws w1 = some c2 ∧
      collides wideAssets c2 = true ∧
      update 12 wideAssets demoDraws w1 = .done w2 ∧
      w1.gameState.mode = Mode.PLAY ∧ w2.gameState.mode = Mode.PLAY ∧
      w2.gameState.mode ≠ Mode.OVER := by
  have hm : shieldWorld.gameState.mode = Mode.PLAY := by decide!
  have hs : shieldWorld.powerup.shieldOn = true := by decide!
  have h1 : (collisionTest 12 wideAssets demoDraws shieldWorld).map (collides wideAssets) =
      some true := by decide!
  have h2 : nextFrameHits 12 wideAssets demoDraws true
      (update 12 wideAssets demoDraws shieldWorld) = true := by decide!
  refine ⟨hm, hs, ?_⟩
  cases hc1 : collisionTest 12 wideAssets demoDraws shieldWorld with
  | none => simp [hc1] at h1
  | some c1 =>
    simp only [hc1, Option.map_some', Option.some.injEq] at h1
    obtain ⟨w1, hu1, _, _, _, hm1, _⟩ :=
      update_shielded hm hc1 h1 ((collisionTest_rest hc1).2.2 hs)
    rw [hu1] at h2
    obtain ⟨c2, hc2, hcol2, hs2⟩ := nextFrameHits_done h2
    obtain ⟨w2, hu2, _, _, _, hm2, _⟩ := update_shielded hm1 hc2 hcol2 hs2
    exact ⟨c1, w1, c2, w2, rfl, h1, hu1, hc2, hcol2, hu2, hm1, hm2, by rw [hm2]; decide⟩

/-- C5, amended: in a PLAY frame whose collision test finds the hitboxes
intersecting, a shield that was on at the start of the frame is still on at the
test; if the shield is on at the test the frame returns with the shield off,
`ice.x` exactly 180 more than at the test, shake 18, mode PLAY and `best`
unchanged; if it is off the frame returns in mode OVER.  Hence, starting with the
shield on, of two consecutive colliding frames the first ends in PLAY and the
second ends in OVER, provided the shield is off at the second collision test (no
powerup was picked up in the second frame). -/
theorem shield_absorbs_one_hit :
    (∀ (fuel : ℕ) (A : Assets) (d : Draws) (w c : World),
      w.gameState.mode = Mode.PLAY → collisionTest fuel A d w = some c →
      collides A c = true →
      (w.powerup.shieldOn = true → c.powerup.shieldOn = true) ∧
      (c.powerup.shieldOn = true →
        ∃ w', update fuel A d w = .done w' ∧ w'.powerup.shieldOn = false ∧
          w'.ice.x = c.ice.x + 180 ∧ w'.gameState.shake = 18 ∧
          w'.gameState.mode = Mode.PLAY ∧ w'.gameState.best = w.gameState.best) ∧
      (c.powerup.shieldOn = false →
        ∃ w', update fuel A d w = .done w' ∧ w'.gameState.mode = Mode.OVER)) ∧
    (∀ (f1 f2 : ℕ) (A : Assets) (d1 d2 : Draws) (w c1 : World),
      w.gameState.mode = Mode.PLAY → w.powerup.shieldOn = true →
      collisionTest f1 A d1 w = some c1 → collides A c1 = true →
      ∃ w1, update f1 A d1 w = .done w1 ∧ w1.gameState.mode = Mode.PLAY ∧
        ∀ c2, collisionTest f2 A d2 w1 = some c2 → collides A c2 = true →
          c2.powerup.shieldOn = false →
          ∃ w2, update f2 A d2 w1 = .done w2 ∧ w2.gameState.mode = Mode.OVER) := by
  constructor
  · intro fuel A d w c hm hc hcol
    exact ⟨(collisionTest_rest hc).2.2, fun hs => update_shielded hm hc hcol hs,
      fun hs => update_unshielded hm hc hcol hs⟩
  · intro f1 f2 A d1 d2 w c1 hm hs hc1 hcol1
    obtain ⟨w1, hu1, _, _, _, hm1, _⟩ :=
      update_shielded hm hc1 hcol1 ((collisionTest_rest hc1).2.2 hs)
    exact ⟨w1, hu1, hm1, fun c2 hc2 hcol2 hs2 => update_unshielded hm1 hc2 hcol2 hs2⟩

/-- C5, amended, concrete instance: from `lastShieldWorld` (shield on, no powerup
around) the first colliding frame ends in PLAY and the second one in OVER. -/
theorem shield_absorbs_one_hit_witness :
    ∃ w1 w2, update 12 wideAssets demoDraws lastShieldWorld = .done w1 ∧
      w1.gameState.mode = Mode.PLAY ∧
      update 12 wideAssets demoDraws w1 = .done w2 ∧ w2.gameState.mode = Mode.OVER := by
  have hm : lastShieldWorld.gameState.mode = Mode.PLAY := by decide!
  have hs : lastShieldWorld.powerup.shieldOn = true := by decide!
  have h1 : (collisionTest 12 wideAssets demoDraws lastShieldWorld).map (collides wideAssets) =
      some true := by decide!
  have h2 : nextFrameHits 12 wideAssets demoDraws false
      (update 12 wideAssets demoDraws lastShieldWorld) = true := by decide!
  cases hc1 : collisionTest 12 wideAssets demoDraws lastShieldWorld with
  | none => simp [hc1] at h1
  | some c1 =>
    simp only [hc1, Option.map_some', Option.some.injEq] at h1
    obtain ⟨w1, hu1, hm1, hnext⟩ :=
      shield_absorbs_one_hit.2 12 12 wideAssets demoDraws demoDraws lastShieldWorld c1
        hm hs hc1 h1
    rw [hu1] at h2
    obtain ⟨c2, hc2, hcol2, hs2⟩ := nextFrameHits_done h2
    obtain ⟨w2, hu2, hm2⟩ := hnext c2 hc2 hcol2 hs2
    exact ⟨w1, w2, hu1, hm1, hu2, hm2⟩


/-- A draw from the range of `Math.random()` selects one of the six cloud sprites. -/
theorem pickName_cloud (r : ℚ) (hr : unitDraw r) :
    ∃ name, pickName SEQ_CLOUD r = some name ∧ name ∈ SEQ_CLOUD := by
  obtain ⟨h0, h1⟩ := hr
  unfold pickName
  have hlen : ((SEQ_CLOUD.length : ℕ) : ℚ) = 6 := by norm_num [SEQ_CLOUD]
  rw [hlen]
  have hlo : (0 : ℤ) ≤ Rat.floor (r * 6) := Rat.le_floor.mpr (by push_cast; linarith)
  have hhi : Rat.floor (r * 6) < 6 := by
    by_contra hcon
    have := Rat.le_floor.mp (not_lt.mp hcon)
    push_cast at this
    linarith
  simp only [not_lt.mpr hlo, if_false]
  have hn : (Rat.floor (r * 6)).toNat < SEQ_CLOUD.length := by
    have : SEQ_CLOUD.length = 6 := rfl
    omega
  refine ⟨SEQ_CLOUD.get ⟨_, hn⟩, ?_, List.get_mem _ _ _⟩
  exact List.get?_eq_get hn

theorem spawnCloud_length (A : Assets) (hA : A.hasClouds) (c : CloudDraw) (hc : unitDraw c.pick)
    (b : Bool) (clouds : List Cloud) :
    (spawnCloud A c b clouds).length = clouds.length + 1 := by
  obtain ⟨name, hn, hmem⟩ := pickName_cloud c.pick hc
  obtain ⟨img, hi⟩ := Option.isSome_iff_exists.mp (hA name hmem)
  unfold spawnCloud
  simp [hn, hi]

theorem moveClouds_length (clouds : List Cloud) : (moveClouds clouds).length ≤ clouds.length := by
  unfold moveClouds
  exact le_trans (List.length_filter_le _ _) (by simp)

/-- With every cloud sprite present, the top-up loop ends within `12 - length`
iterations and leaves exactly 12 clouds when it started with at most 12. -/
theorem topUp_fills (A : Assets) (hA : A.hasClouds) (draw : ℕ → CloudDraw)
    (hd : ∀ k, unitDraw (draw k).pick) :
    ∀ (fuel k : ℕ) (clouds : List Cloud), clouds.length ≤ 12 → 12 - clouds.length ≤ fuel →
      ∃ r, topUp A draw fuel k clouds = some r ∧ r.length = 12 := by
  intro fuel
  induction fuel with
  | zero =>
    intro k clouds h1 h2
    have : clouds.length = 12 := by omega
    exact ⟨clouds, by simp [topUp, this], this⟩
  | succ n ih =>
    intro k clouds h1 h2
    by_cases hlt : clouds.length < 12
    · have hlen := spawnCloud_length A hA (draw k) (hd k) true clouds
      obtain ⟨r, hr, hr12⟩ := ih (k + 1) (spawnCloud A (draw k) true clouds)
        (by omega) (by omega)
      exact ⟨r, by simp [topUp, hlt, hr], hr12⟩
    · have : clouds.length = 12 := by omega
      exact ⟨clouds, by simp [topUp, this], this⟩

/-- Whenever the top-up loop ends, having started with at most 12 clouds, it
leaves exactly 12. -/
theorem topUp_result (A : Assets) (hA : A.hasClouds) (draw : ℕ → CloudDraw)
    (hd : ∀ k, unitDraw (draw k).pick) :
    ∀ (fuel k : ℕ) (clouds r : List Cloud), clouds.length ≤ 12 →
      topUp A draw fuel k clouds = some r → r.length = 12 := by
  intro fuel
  induction fuel with
  | zero =>
    intro k clouds r h1 h
    by_cases hlt : clouds.length < 12
    · simp [topUp, hlt] at h
    · simp only [topUp, hlt, if_false, Option.some.injEq] at h
      subst h; omega
  | succ n ih =>
    intro k clouds r h1 h
    by_cases hlt : clouds.length < 12
    · simp only [topUp, hlt, if_true] at h
      have hlen := spawnCloud_length A hA (draw k) (hd k) true clouds
      exact ih (k + 1) _ r (by omega) h
    · simp only [topUp, hlt, if_false, Option.some.injEq] at h
      subst h; omega

theorem resetGame_clouds (A : Assets) (hA : A.hasClouds) (d : Draws)
    (hd : ∀ k, unitDraw (d.cloud k).pick) (w : World) :
    (resetGame A d w).clouds.length = 12 := by
  have key : ∀ (n : ℕ) (init : List Cloud),
      ((List.range n).foldl (fun cl i => spawnCloud A (d.cloud i) false cl) init).length =
        init.length + n := by
    intro n
    induction n with
    | zero => intro init; simp
    | succ m ih =>
      intro init
      rw [List.range_succ, List.foldl_append]
      simp only [List.foldl_cons, List.foldl_nil]
      rw [spawnCloud_length A hA _ (hd m), ih]
      omega
  simp only [resetGame]
  rw [key 12 []]
  rfl

/-- The cloud list at the end of a PLAY frame is the one the top-up loop left. -/
theorem update_play_clouds {fuel : ℕ} {A : Assets} {d : Draws} {w w' : World}
    (hm : w.gameState.mode = Mode.PLAY) (h : (update fuel A d w).final = some w') :
    topUp A d.cloud fuel 0 (moveClouds w.clouds) = some w'.clouds := by
  obtain ⟨clouds, ht, hp⟩ := update_play_final hm h
  have ha := (afterScore_rest A d w clouds).2.2.2.2.1
  rw [ht]
  congr 1
  rcases hp with hp | ⟨w3, hp, hk⟩
  · rw [(powerupStep_rest A _ _ (Or.inr hp)).2.2.1, ha]
  · have h3 := (powerupStep_rest A _ _ (Or.inl hp)).2.2.1
    have h4 := (dolphinStep_rest w3).2.2.2.2.1
    rcases hk with hk | hk
    · rw [collisionStep_error A _ _ hk, h4, h3, ha]
    · rw [(collisionStep_rest A _ _ hk).2.2.2.1, h4, h3, ha]


/-- A PLAY frame whose top-up loop ends does end. -/
theorem update_ends_of_topUp {fuel : ℕ} {A : Assets} {d : Draws} {w : World}
    {clouds : List Cloud} (hm : w.gameState.mode = Mode.PLAY)
    (ht : topUp A d.cloud fuel 0 (moveClouds w.clouds) = some clouds) :
    ∃ w', (update fuel A d w).final = some w' := by
  unfold update
  have hm1 : (tick w).gameState.mode = Mode.PLAY := by rw [tick_gameState]; exact hm
  simp only [hm1, if_true, (tick_rest w).2.1, ht]
  cases powerupStep A (afterScore A d w clouds) with
  | error e => exact ⟨e, rfl⟩
  | ok w3 =>
    simp only
    cases collisionStep A (dolphinStep w3) with
    | error e => exact ⟨e, rfl⟩
    | ok w4 => exact ⟨w4, rfl⟩

theorem update_clouds_result {fuel : ℕ} {A : Assets} {d : Draws} {w w' : World}
    (hA : A.hasClouds) (hd : ∀ k, unitDraw (d.cloud k).pick) (hw : w.clouds.length = 12)
    (h : (update fuel A d w).final = some w') : w'.clouds.length = 12 := by
  by_cases hm : w.gameState.mode = Mode.PLAY
  · have ht := update_play_clouds hm h
    exact topUp_result A hA d.cloud hd fuel 0 _ _
      (le_trans (moveClouds_length w.clouds) (le_of_eq hw)) ht
  · rw [update_not_play fuel A d w hm] at h
    simp only [Outcome.final, Option.some.injEq] at h
    subst h
    rw [(tick_rest w).2.1]; exact hw

theorem act_clouds {A : Assets} {a : Action} {w w' : World} (hA : A.hasClouds)
    (ha : a.valid) (hw : w.clouds.length = 12) (h : act A a w = some w') :
    w'.clouds.length = 12 := by
  cases a with
  | reset d =>
    simp only [act, Option.some.injEq] at h
    subst h
    exact resetGame_clouds A hA d (fun k => (ha.1 k).1) w
  | jump =>
    simp only [act, Option.some.injEq] at h
    subst h
    rw [(triggerJump_rest w).2.1]; exact hw
  | frame fuel d =>
    simp only [act] at h
    exact update_clouds_result hA (fun k => (ha.1 k).1) hw h

theorem runActions_clouds {A : Assets} (hA : A.hasClouds) (l : List Action) :
    ∀ {w w' : World}, (∀ a, a ∈ l → a.valid) → w.clouds.length = 12 →
      runActions A l w = some w' → w'.clouds.length = 12 := by
  induction l with
  | nil =>
    intro w w' _ hw h
    simp only [runActions, Option.some.injEq] at h
    subst h; exact hw
  | cons a rest ih =>
    intro w w' hv hw h
    simp only [runActions] at h
    cases ha : act A a w with
    | none => simp [ha] at h
    | some w1 =>
      simp only [ha, Option.some_bind] at h
      exact ih (fun b hb => hv b (List.mem_cons_of_mem a hb))
        (act_clouds hA (hv a (List.mem_cons_self a rest)) hw ha) h

theorem demoDraws_valid : demoDraws.valid := by
  unfold Draws.valid unitDraw demoDraws demoCloud
  norm_num

/-- C6: with every cloud sprite of `SEQ_CLOUD` in the asset store and every draw
in the range of `Math.random()`, the cloud list has exactly 12 elements after
`resetGame`; `triggerJump` leaves the list alone; a frame started with 12 clouds
ends when given 12 loop iterations and, whenever it ends, in any mode, again has
exactly 12 clouds; so after `resetGame` and any later sequence of events the list
has 12 elements. -/
theorem cloud_count (A : Assets) (hA : A.hasClouds) :
    (∀ (d : Draws) (w : World), d.valid → (resetGame A d w).clouds.length = 12) ∧
    (∀ w : World, (triggerJump w).clouds = w.clouds) ∧
    (∀ (fuel : ℕ) (d : Draws) (w : World), d.valid → w.clouds.length = 12 → 12 ≤ fuel →
      ∃ w', (update fuel A d w).final = some w' ∧ w'.clouds.length = 12) ∧
    (∀ (fuel : ℕ) (d : Draws) (w w' : World), d.valid → w.clouds.length = 12 →
      (update fuel A d w).final = some w' → w'.clouds.length = 12) ∧
    (∀ (d : Draws) (l : List Action) (w w' : World), d.valid → (∀ a, a ∈ l → a.valid) →
      runActions A (Action.reset d :: l) w = some w' → w'.clouds.length = 12) := by
  refine ⟨?_, ?_, ?_, ?_, ?_⟩
  · intro d w hd
    exact resetGame_clouds A hA d (fun k => (hd.1 k).1) w
  · intro w
    exact (triggerJump_rest w).2.1
  · intro fuel d w hd hw hfuel
    have hpick : ∀ k, unitDraw (d.cloud k).pick := fun k => (hd.1 k).1
    have hends : ∃ w', (update fuel A d w).final = some w' := by
      by_cases hm : w.gameState.mode = Mode.PLAY
      · have hlen := moveClouds_length w.clouds
        obtain ⟨r, hr, _⟩ := topUp_fills A hA d.cloud hpick fuel 0 (moveClouds w.clouds)
          (by omega) (by omega)
        exact update_ends_of_topUp hm hr
      · exact ⟨tick w, by rw [update_not_play fuel A d w hm]; rfl⟩
    obtain ⟨w', hw'⟩ := hends
    exact ⟨w', hw', update_clouds_result hA hpick hw hw'⟩
  · intro fuel d w w' hd hw h
    exact update_clouds_result hA (fun k => (hd.1 k).1) hw h
  · intro d l w w' hd hl h
    simp only [runActions, act, Option.some_bind] at h
    exact runActions_clouds hA l hl (resetGame_clouds A hA d (fun k => (hd.1 k).1) w) h

/-- C6, concrete instance: with 64 by 64 sprites and all draws one half, the game
that swims into the first obstacle still has 12 clouds in its final OVER state. -/
theorem cloud_count_witness :
    demoAssets.hasClouds ∧
      ∃ w, runActions demoAssets crashScript (initialWorld (JsInt.num 0) []) = some w ∧
        w.clouds.length = 12 := by
  have hA : demoAssets.hasClouds := fun _ _ => rfl
  have hs : (runActions demoAssets crashScript (initialWorld (JsInt.num 0) [])).isSome = true := by
    decide!
  obtain ⟨w, hw⟩ := Option.isSome_iff_exists.mp hs
  refine ⟨hA, w, hw, ?_⟩
  have hl : ∀ a, a ∈ List.replicate 97 (Action.frame 12 demoDraws) → a.valid := by
    intro a ha
    rw [List.eq_of_mem_replicate ha]
    exact demoDraws_valid
  exact (cloud_count demoAssets hA).2.2.2.2 demoDraws
    (List.replicate 97 (Action.frame 12 demoDraws)) (initialWorld (JsInt.num 0) []) w
    demoDraws_valid hl hw


/-- A PLAY frame that returns has run the physics block once on the dolphin. -/
theorem update_done_dolphin {fuel : ℕ} {A : Assets} {d : Draws} {w w' : World}
    (hm : w.gameState.mode = Mode.PLAY) (h : update fuel A d w = .done w') :
    w'.dolphin = (dolphinPhysics w.dolphin).1 := by
  unfold update at h
  have hm1 : (tick w).gameState.mode = Mode.PLAY := by rw [tick_gameState]; exact hm
  simp only [hm1, if_true, (tick_rest w).2.1] at h
  cases ht : topUp A d.cloud fuel 0 (moveClouds w.clouds) with
  | none => simp [ht] at h
  | some cl =>
    simp only [ht] at h
    cases hq : powerupStep A (afterScore A d w cl) with
    | error e => simp [hq] at h
    | ok w3 =>
      simp only [hq] at h
      cases hk : collisionStep A (dolphinStep w3) with
      | error e => simp [hk] at h
      | ok w4 =>
        simp only [hk, Outcome.done.injEq] at h
        subst h
        rw [(collisionStep_rest A _ _ hk).2.2.1, (dolphinStep_rest w3).2.2.2.2.2.2.2.2,
          (powerupStep_rest A _ _ (Or.inl hq)).2.1, (afterScore_rest A d w cl).2.2.2.1]

theorem dolphinPhysics_x (dl : Dolphin) (a : ℚ) :
    (dolphinPhysics { dl with x := a }).1 = { (dolphinPhysics dl).1 with x := a } := by
  unfold dolphinPhysics
  simp only
  split_ifs <;> rfl

theorem flight_x (x : ℚ) (n : ℕ) : flight x n = { flight 0 n with x := x } := by
  induction n with
  | zero => rfl
  | succ k ih =>
    unfold flight at ih ⊢
    rw [Function.iterate_succ_apply', Function.iterate_succ_apply', ih, dolphinPhysics_x]

theorem flight_succ (x : ℚ) (n : ℕ) : flight x (n + 1) = (dolphinPhysics (flight x n)).1 := by
  unfold flight
  rw [Function.iterate_succ_apply']


theorem flight_airborne : ∀ n, n ≤ 48 →
    (flight 0 n).vy = -15 + 3 / 5 * (n : ℚ) ∧
      (flight 0 n).y = 500 - 15 * (n : ℚ) + 3 / 10 * (n : ℚ) * ((n : ℚ) + 1) := by
  decide!

theorem flight_height : ∀ n, n ≤ 57 →
    320 ≤ (flight 0 n).y ∧ (1 ≤ n → n ≤ 48 → (flight 0 n).y < 500) := by
  decide!

theorem flight_landed : ∀ n, n ≤ 57 → 49 ≤ n →
    (flight 0 n).y = 500 ∧ (flight 0 n).vy = 0 := by
  decide!

theorem flight_jumping : ∀ n, n ≤ 56 → (flight 0 n).isJumping = true := by
  decide!

theorem flight_end : (flight 0 57).isJumping = false ∧ (flight 0 57).landingHold = 0 ∧
    (flight 0 25).vy = 0 ∧ (flight 0 25).y = 320 ∧ (flight 0 24).y = 320 := by
  decide!


/-- Along frames that start in PLAY mode and return, the dolphin follows `flight`. -/
theorem trace_flight (A : Assets) (w : World) (σ : ℕ → World) (fuel : ℕ → ℕ) (d : ℕ → Draws)
    (N : ℕ) (hm : w.gameState.mode = Mode.PLAY) (hy : w.dolphin.y = 500)
    (hj : w.dolphin.isJumping = false) (h0 : σ 0 = triggerJump w)
    (hstep : ∀ i, i < N → (σ i).gameState.mode = Mode.PLAY ∧
      update (fuel i) A (d i) (σ i) = .done (σ (i + 1))) :
    ∀ n, n ≤ N → (σ n).dolphin = flight w.dolphin.x n := by
  intro n
  induction n with
  | zero =>
    intro _
    rw [h0]
    unfold triggerJump flight
    simp only [hm, hj, ne_eq, not_true_eq_false, if_false, Bool.not_false, if_true,
      Function.iterate_zero, id_eq]
    rw [show GROUND_Y = w.dolphin.y by rw [hy]; rfl]
  | succ k ih =>
    intro hk
    obtain ⟨hmk, huk⟩ := hstep k (by omega)
    rw [update_done_dolphin hmk huk, ih (by omega), flight_succ]

/-- C7: with exact rational arithmetic, let `w` be a PLAY state with a grounded
dolphin (`y = 500`, not jumping; the jump overwrites `vy`, so its old value 0
plays no role), let `σ 0 = triggerJump w`, and let
each of the first `N` frames start in PLAY mode and return (no game over before
it).  Then at every step `n <= N` up to 57: while airborne (`n <= 48`)
`vy = -15 + 0.6 n` and `y = 500 - 15 n + 0.3 n (n + 1)`; at step 25 `vy = 0` and
`y = 320`, and `y` is never below 320; `y` is above the ground line (`y < 500`) on
steps 1 to 48 and is back at 500 from step 49 on; `isJumping` is still true up to
step 56; and at step 57, the 8th step after the first ground contact, `isJumping`
is false and `landingHold` is 0. -/
theorem jump_trajectory (A : Assets) (w : World) (σ : ℕ → World) (fuel : ℕ → ℕ)
    (d : ℕ → Draws) (N : ℕ) (hm : w.gameState.mode = Mode.PLAY) (hy : w.dolphin.y = 500)
    (hj : w.dolphin.isJumping = false) (h0 : σ 0 = triggerJump w)
    (hstep : ∀ i, i < N → (σ i).gameState.mode = Mode.PLAY ∧
      update (fuel i) A (d i) (σ i) = .done (σ (i + 1))) :
    ∀ n, n ≤ N → n ≤ 57 →
      (n ≤ 48 → (σ n).dolphin.vy = -15 + 3 / 5 * (n : ℚ) ∧
        (σ n).dolphin.y = 500 - 15 * (n : ℚ) + 3 / 10 * (n : ℚ) * ((n : ℚ) + 1)) ∧
      (n = 25 → (σ n).dolphin.vy = 0 ∧ (σ n).dolphin.y = 320) ∧
      320 ≤ (σ n).dolphin.y ∧
      (1 ≤ n → n ≤ 48 → (σ n).dolphin.y < 500) ∧
      (49 ≤ n → (σ n).dolphin.y = 500) ∧
      (n ≤ 56 → (σ n).dolphin.isJumping = true) ∧
      (n = 57 → (σ n).dolphin.isJumping = false ∧ (σ n).dolphin.landingHold = 0) := by
  intro n hn h57
  have hd := trace_flight A w σ fuel d N hm hy hj h0 hstep n hn
  rw [hd, flight_x]
  simp only
  refine ⟨fun h => flight_airborne n h, ?_, (flight_height n h57).1,
    (flight_height n h57).2, fun h => (flight_landed n h57 h).1,
    fun h => flight_jumping n h, ?_⟩
  · intro h; subst h
    exact ⟨flight_end.2.2.1, flight_end.2.2.2.1⟩
  · intro h; subst h
    exact ⟨flight_end.1, flight_end.2.1⟩

theorem framesOk_steps (fuel : ℕ) (A : Assets) (d : Draws) :
    ∀ (N : ℕ) (w : World), framesOk fuel A d N w = true →
      ∀ i, i < N → ((nextWorld fuel A d)^[i] w).gameState.mode = Mode.PLAY ∧
        update fuel A d ((nextWorld fuel A d)^[i] w) =
          .done ((nextWorld fuel A d)^[i + 1] w) := by
  intro N
  induction N with
  | zero => intro w _ i hi; omega
  | succ k ih =>
    intro w h i hi
    simp only [framesOk, Bool.and_eq_true] at h
    obtain ⟨h1, h2⟩ := h
    cases i with
    | zero =>
      simp only [frameOk, Bool.and_eq_true, decide_eq_true_eq] at h1
      obtain ⟨hm, hu⟩ := h1
      refine ⟨hm, ?_⟩
      simp only [Function.iterate_zero, id_eq, zero_add, Function.iterate_one]
      unfold nextWorld
      cases hc : update fuel A d w with
      | done w' => rfl
      | typeError e => simp [hc] at hu
      | diverges => simp [hc] at hu
    | succ j =>
      have := ih (nextWorld fuel A d w) h2 j (by omega)
      simpa only [Function.iterate_succ_apply] using this

/-- C7, concrete instance: a jump right after START with 64 by 64 sprites; the 57
frames all return in PLAY mode, the dolphin is at `y = 320` with `vy = 0` after 25
frames, on the ground and still jumping after 49, and done jumping after 57. -/
theorem jump_trajectory_witness :
    ((nextWorld 12 demoAssets demoDraws)^[25] (triggerJump demoWorld)).dolphin.y = 320 ∧
    ((nextWorld 12 demoAssets demoDraws)^[25] (triggerJump demoWorld)).dolphin.vy = 0 ∧
    ((nextWorld 12 demoAssets demoDraws)^[49] (triggerJump demoWorld)).dolphin.y = 500 ∧
    ((nextWorld 12 demoAssets demoDraws)^[49] (triggerJump demoWorld)).dolphin.isJumping = true ∧
    ((nextWorld 12 demoAssets demoDraws)^[57] (triggerJump demoWorld)).dolphin.isJumping =
      false := by
  have key := jump_trajectory demoAssets demoWorld
    (fun n => (nextWorld 12 demoAssets demoDraws)^[n] (triggerJump demoWorld))
    (fun _ => 12) (fun _ => demoDraws) 57 (by decide!) (by decide!) (by decide!) rfl
    (framesOk_steps 12 demoAssets demoDraws 57 (triggerJump demoWorld) (by decide!))
  obtain ⟨-, k25, -⟩ := key 25 (by norm_num) (by norm_num)
  obtain ⟨-, -, -, -, k49, j49, -⟩ := key 49 (by norm_num) (by norm_num)
  obtain ⟨-, -, -, -, -, -, k57⟩ := key 57 (by norm_num) (by norm_num)
  have e25 := k25 (Eq.refl 25)
  have e49 := k49 (Nat.le_refl 49)
  have f49 := j49 (by norm_num)
  have e57 := k57 (Eq.refl 57)
  beta_reduce at e25 e49 f49 e57
  exact ⟨e25.2, e25.1, e49, f49, e57.1⟩


/-- C8, the code at a failing input: the events of one audio key can raise the
counter twice.  For the key `hit` alone, the fallback timer followed by `error`
(or `canplaythrough` followed by `error`, or `error` followed by
`canplaythrough`) gives `loadedCount = 2`; in a full load where `hit` times out
and then fails, `loadedCount` ends at 36 with `totalAssets = 35`, and the switch
to COVER is scheduled twice.  A repeated `canplaythrough` is counted once. -/
theorem audio_counted_twice :
    totalAssets = 35 ∧
    (runLoad [LoadEvent.audioTimeout "hit", LoadEvent.audioError "hit"] initLoader).loadedCount
      = 2 ∧
    (runLoad [LoadEvent.canplaythrough "hit", LoadEvent.audioError "hit"]
      initLoader).loadedCount = 2 ∧
    (runLoad [LoadEvent.audioError "hit", LoadEvent.canplaythrough "hit"]
      initLoader).loadedCount = 2 ∧
    (runLoad [LoadEvent.canplaythrough "hit", LoadEvent.canplaythrough "hit"]
      initLoader).loadedCount = 1 ∧
    (runLoad slowFailureEvents initLoader).loadedCount = 36 ∧
    (runLoad slowFailureEvents initLoader).scheduled = 2 := by
  decide!


/-- On a state whose `best` is an integer `b`, `gameOver` sets the mode to OVER and
the shake to 24 and sets `best` to `max(b, score)`, so `best` does not decrease and
is at least the score afterwards; it writes to storage exactly when the score
exceeded the old best, and then writes the new best; `score`, `frames`,
`audioUnlocked`, the dolphin, the obstacle, the powerup and the clouds are
unchanged. -/
theorem gameOver_integer_best (w : World) (b : ℤ) (hb : w.gameState.best = JsInt.num b) :
    (gameOver w).gameState.mode = Mode.OVER ∧
    (gameOver w).gameState.shake = 24 ∧
    (gameOver w).gameState.best = JsInt.num (max b (w.gameState.score : ℤ)) ∧
    b ≤ max b (w.gameState.score : ℤ) ∧
    ((gameOver w).gameState.score : ℤ) ≤ max b (w.gameState.score : ℤ) ∧
    ((gameOver w).gameState.best).atLeast ((gameOver w).gameState.score : ℤ) = true ∧
    ((w.gameState.score : ℤ) > b →
      (gameOver w).saved = (w.gameState.score : ℤ) :: w.saved ∧
        (gameOver w).gameState.best = JsInt.num (w.gameState.score : ℤ)) ∧
    (¬ (w.gameState.score : ℤ) > b → (gameOver w).saved = w.saved) ∧
    (gameOver w).gameState.score = w.gameState.score ∧
    (gameOver w).gameState.frames = w.gameState.frames ∧
    (gameOver w).gameState.audioUnlocked = w.gameState.audioUnlocked ∧
    (gameOver w).dolphin = w.dolphin ∧ (gameOver w).ice = w.ice ∧
    (gameOver w).powerup = w.powerup ∧ (gameOver w).clouds = w.clouds := by
  unfold gameOver startShake
  simp only [hb, JsInt.below]
  by_cases h : (w.gameState.score : ℤ) > b
  · have h1 : max b (w.gameState.score : ℤ) = (w.gameState.score : ℤ) :=
      max_eq_right (le_of_lt h)
    simp [h, h1, le_of_lt h, JsInt.atLeast]
  · have h1 : max b (w.gameState.score : ℤ) = b := max_eq_left (not_lt.mp h)
    simp [h, h1, not_lt.mp h, JsInt.atLeast, hb]

/-- On a state whose `best` is NaN, `gameOver` leaves `best` NaN and writes
nothing, whatever the score. -/
theorem gameOver_nan (w : World) (hb : w.gameState.best = JsInt.nan) :
    (gameOver w).gameState.best = JsInt.nan ∧ (gameOver w).saved = w.saved := by
  unfold gameOver startShake
  simp [hb, JsInt.below]

/-- C9, the code at a failing input: when the stored high score is text that
`parseInt` cannot read, `best` starts as NaN; `gameOver` then never raises it and
never writes, so `best >= score` is false after a game over.  In the run that
starts so, clears the first obstacle and swims into the second, the final state
is in mode OVER with score 1, `best` still NaN and nothing written. -/
theorem gameOver_unparsable_best :
    loadBest (some JsInt.nan) = JsInt.nan ∧
    (∀ w : World, w.gameState.best = JsInt.nan →
      (gameOver w).gameState.mode = Mode.OVER ∧
      (gameOver w).gameState.best = JsInt.nan ∧ (gameOver w).saved = w.saved ∧
      ((gameOver w).gameState.best).atLeast ((gameOver w).gameState.score : ℤ) = false) ∧
    (runActions demoAssets secondCrashScript (initialWorld (loadBest (some JsInt.nan)) [])).map
      (fun w => (w.gameState.mode, w.gameState.score, w.gameState.best, w.saved,
        w.gameState.best.atLeast (w.gameState.score : ℤ))) =
      some (Mode.OVER, 1, JsInt.nan, [], false) := by
  refine ⟨rfl, ?_, by decide!⟩
  intro w hb
  obtain ⟨h1, h2⟩ := gameOver_nan w hb
  refine ⟨(gameOver_rest w).1, h1, h2, ?_⟩
  rw [h1]
  rfl

/-- C10: outside PLAY mode (LOADING, COVER or OVER) a frame returns after raising
`frames` by exactly 1 and setting the shake to `max(0, shake - 1)`, with the mode,
score, best, dolphin, obstacle, powerup, clouds and storage unchanged; and in
every mode, PLAY included, a frame that ends has raised `frames` by exactly 1 and
leaves a shake that is not negative. -/
theorem update_outside_play :
    (∀ (fuel : ℕ) (A : Assets) (d : Draws) (w : World), w.gameState.mode ≠ Mode.PLAY →
      ∃ w', update fuel A d w = .done w' ∧
        w'.gameState.frames = w.gameState.frames + 1 ∧
        (w'.gameState.shake : ℤ) = max 0 ((w.gameState.shake : ℤ) - 1) ∧
        w'.gameState.mode = w.gameState.mode ∧ w'.gameState.score = w.gameState.score ∧
        w'.gameState.best = w.gameState.best ∧
        w'.gameState.audioUnlocked = w.gameState.audioUnlocked ∧
        w'.dolphin = w.dolphin ∧ w'.ice = w.ice ∧ w'.powerup = w.powerup ∧
        w'.clouds = w.clouds ∧ w'.saved = w.saved) ∧
    (∀ (fuel : ℕ) (A : Assets) (d : Draws) (w w' : World),
      (update fuel A d w).final = some w' →
        w'.gameState.frames = w.gameState.frames + 1 ∧ (0 : ℤ) ≤ (w'.gameState.shake : ℤ)) := by
  constructor
  · intro fuel A d w hm
    refine ⟨tick w, update_not_play fuel A d w hm, ?_⟩
    obtain ⟨t1, t2, t3, t4, t5⟩ := tick_rest w
    rw [tick_gameState]
    refine ⟨rfl, ?_, rfl, rfl, rfl, rfl, t1, t3, t4, t2, t5⟩
    simp only
    omega
  · intro fuel A d w w' h
    refine ⟨?_, Int.natCast_nonneg _⟩
    by_cases hm : w.gameState.mode = Mode.PLAY
    · obtain ⟨clouds, _, hp⟩ := update_play_final hm h
      have ha := (afterScore_rest A d w clouds).2.2.1
      rcases hp with hp | ⟨w3, hp, hk⟩
      · rw [(powerupStep_rest A _ _ (Or.inr hp)).1, ha]
      · have h3 := (powerupStep_rest A _ _ (Or.inl hp)).1
        have h4 := (dolphinStep_rest w3).2.2.2.1
        rcases hk with hk | hk
        · rw [collisionStep_error A _ _ hk, h4, h3, ha]
        · rw [(collisionStep_rest A _ _ hk).2.1, h4, h3, ha]
    · rw [update_not_play fuel A d w hm] at h
      simp only [Outcome.final, Option.some.injEq] at h
      subst h
      rw [tick_gameState]

/-- C10, concrete instance: a frame on the LOADING-mode initial state only moves
the frame counter from 0 to 1. -/
theorem update_outside_play_witness :
    ∃ w', update 0 demoAssets demoDraws (initialWorld (JsInt.num 0) []) = .done w' ∧
      w'.gameState.frames = 1 ∧ w'.gameState.mode = Mode.LOADING ∧ w'.clouds = [] := by
  obtain ⟨w', h, hf, _, hm, _, _, _, _, _, _, hc, _⟩ :=
    update_outside_play.1 0 demoAssets demoDraws (initialWorld (JsInt.num 0) []) (by decide)
  exact ⟨w', h, hf, hm, hc⟩

/-- The code's two hitboxes, in words: the dolphin sprite inset by 20 px left
and right and 10 px top and bottom, the obstacle sprite inset by 10 px left, right
and top and not at all at the bottom. -/
theorem hitboxes_inset (c : World) (iImg dImg : Img) :
    dolphinHitbox c dImg = insetSides (spriteRect c.dolphin.x c.dolphin.y dImg) 20 20 10 10 ∧
      iceHitbox c iImg = insetSides (spriteRect c.ice.x c.ice.y iImg) 10 10 10 0 := by
  unfold dolphinHitbox iceHitbox insetSides spriteRect
  simp only [Rect.mk.injEq, true_and]
  refine ⟨⟨?_, ?_⟩, ?_, ?_⟩ <;> ring

theorem collisionStep_miss (A : Assets) (c : World) (iImg dImg : Img)
    (hi : c.ice.img = some iImg) (hd : dolphinImg A c = some dImg)
    (h : rectIntersect (dolphinHitbox c dImg) (iceHitbox c iImg) = false) :
    collisionStep A c = .ok c := by
  unfold collisionStep
  simp [hi, hd, h]

theorem collides_eq (A : Assets) (c : World) (iImg dImg : Img)
    (hi : c.ice.img = some iImg) (hd : dolphinImg A c = some dImg) :
    collides A c = rectIntersect (dolphinHitbox c dImg) (iceHitbox c iImg) := by
  unfold collides
  simp [hi, hd]

/-- C11 as stated fails: after START and 96 frames of swimming with 64 by 64
sprites, the next frame reaches its collision test with the dolphin at
`(100, 500)` and the obstacle at `(130, 450)`.  The code's obstacle hitbox spans
`y` from 460 to 514 and meets the dolphin hitbox, which starts at `y = 510`, so
the frame is treated as a collision and ends in OVER; with the obstacle inset by
10 px at the bottom as well its box would end at 504, above the dolphin hitbox,
and the two rectangles of the claim do not intersect. -/
theorem obstacle_bottom_inset_counterexample :
    ∃ w c w', runActions demoAssets almostCrashScript (initialWorld (JsInt.num 0) []) = some w ∧
      w.gameState.mode = Mode.PLAY ∧
      collisionTest 12 demoAssets demoDraws w = some c ∧
      c.ice.img = some ⟨64, 64⟩ ∧ dolphinImg demoAssets c = some ⟨64, 64⟩ ∧
      (c.dolphin.x = 100 ∧ c.dolphin.y = 500 ∧ c.dolphin.isJumping = false) ∧
      (c.ice.x = 130 ∧ c.ice.y = 450) ∧
      update 12 demoAssets demoDraws w = .done w' ∧ w'.gameState.mode = Mode.OVER ∧
      collides demoAssets c = true ∧
      rectIntersect (insetSides (spriteRect c.dolphin.x c.dolphin.y ⟨64, 64⟩) 20 20 10 10)
        (insetSides (spriteRect c.ice.x c.ice.y ⟨64, 64⟩) 10 10 10 10) = false := by
  have hs : crashFacts demoAssets demoDraws
      (runActions demoAssets almostCrashScript (initialWorld (JsInt.num 0) [])) =
      some [true, true, true, true, true, true, true, true] := by decide!
  unfold crashFacts at hs
  cases hw : runActions demoAssets almostCrashScript (initialWorld (JsInt.num 0) []) with
  | none => simp [hw] at hs
  | some w =>
    simp only [hw, Option.some_bind] at hs
    cases hc : collisionTest 12 demoAssets demoDraws w with
    | none => simp [hc] at hs
    | some c =>
      simp only [hc, Option.map_some', Option.some.injEq, List.cons.injEq, decide_eq_true_eq,
        and_true] at hs
      obtain ⟨h1, h2, h3, h4, h5, h6, h7, h8⟩ := hs
      cases hu : update 12 demoAssets demoDraws w with
      | done w' =>
        simp only [hu, decide_eq_true_eq] at h6
        refine ⟨w, c, w', rfl, h1, hc, h2, h3, h4, h5, hu, h6, h7, ?_⟩
        have h9 : insetAllSidesCollides demoAssets c = false := by simpa using h8
        unfold insetAllSidesCollides at h9
        simpa only [h2, h3] using h9
      | typeError e => simp [hu] at h6
      | diverges => simp [hu] at h6

/-- A colliding PLAY frame returns with globals that differ from those at the
collision test. -/
theorem update_hit {fuel : ℕ} {A : Assets} {d : Draws} {w c : World}
    (hm : w.gameState.mode = Mode.PLAY) (hc : collisionTest fuel A d w = some c)
    (hcol : collides A c = true) :
    ∃ w', update fuel A d w = .done w' ∧ w' ≠ c ∧
      ((c.powerup.shieldOn = true ∧ w'.powerup.shieldOn = false ∧ w'.gameState.shake = 18 ∧
          w'.ice.x = c.ice.x + 180 ∧ w'.gameState.mode = Mode.PLAY) ∨
        (c.powerup.shieldOn = false ∧ w'.gameState.mode = Mode.OVER)) := by
  by_cases hs : c.powerup.shieldOn = true
  · obtain ⟨w', hu, h1, h2, h3, h4, _⟩ := update_shielded hm hc hcol hs
    refine ⟨w', hu, ?_, Or.inl ⟨hs, h1, h3, h2, h4⟩⟩
    intro heq
    rw [heq] at h2
    linarith
  · have hs' : c.powerup.shieldOn = false := by simpa using hs
    obtain ⟨w', hu, h1⟩ := update_unshielded hm hc hcol hs'
    refine ⟨w', hu, ?_, Or.inr ⟨hs', h1⟩⟩
    intro heq
    rw [heq, (collisionTest_rest hc).1, hm] at h1
    cases h1

/-- C11, amended: in a PLAY frame that reaches its collision test with an
obstacle sprite and the dolphin sprite present (the sprite of `jump6.png` when
jumping and of `swim1.png` otherwise), the frame is treated as a collision
exactly when `rectIntersect` holds between the dolphin's sprite rectangle inset by
20 px on each horizontal side and 10 px at top and bottom and the obstacle's
sprite rectangle inset by 10 px on each horizontal side and 10 px at the top
only, its bottom edge being the sprite's bottom edge: when the test holds the
frame returns with the shield used up (shake 18, obstacle pushed 180 px) or in
mode OVER, and the frame returns with the globals of the collision test
untouched exactly when the test fails. -/
theorem collision_hitboxes (fuel : ℕ) (A : Assets) (d : Draws) (w c : World) (iImg dImg : Img)
    (hm : w.gameState.mode = Mode.PLAY) (hc : collisionTest fuel A d w = some c)
    (hi : c.ice.img = some iImg)
    (hd : (if c.dolphin.isJumping then A.images "jump6.png" else A.images "swim1.png") =
      some dImg) :
    (rectIntersect (insetSides (spriteRect c.dolphin.x c.dolphin.y dImg) 20 20 10 10)
        (insetSides (spriteRect c.ice.x c.ice.y iImg) 10 10 10 0) = true →
      ∃ w', update fuel A d w = .done w' ∧ w' ≠ c ∧
        ((c.powerup.shieldOn = true ∧ w'.powerup.shieldOn = false ∧
            w'.gameState.shake = 18 ∧ w'.ice.x = c.ice.x + 180 ∧
            w'.gameState.mode = Mode.PLAY) ∨
          (c.powerup.shieldOn = false ∧ w'.gameState.mode = Mode.OVER))) ∧
    (update fuel A d w = .done c ↔
      rectIntersect (insetSides (spriteRect c.dolphin.x c.dolphin.y dImg) 20 20 10 10)
        (insetSides (spriteRect c.ice.x c.ice.y iImg) 10 10 10 0) = false) := by
  have hd' : dolphinImg A c = some dImg := hd
  obtain ⟨e1, e2⟩ := hitboxes_inset c iImg dImg
  rw [← e1, ← e2]
  have hcol := collides_eq A c iImg dImg hi hd'
  have hit : rectIntersect (dolphinHitbox c dImg) (iceHitbox c iImg) = true →
      ∃ w', update fuel A d w = .done w' ∧ w' ≠ c ∧
        ((c.powerup.shieldOn = true ∧ w'.powerup.shieldOn = false ∧
            w'.gameState.shake = 18 ∧ w'.ice.x = c.ice.x + 180 ∧
            w'.gameState.mode = Mode.PLAY) ∨
          (c.powerup.shieldOn = false ∧ w'.gameState.mode = Mode.OVER)) :=
    fun h => update_hit hm hc (by rw [hcol]; exact h)
  refine ⟨hit, ?_, ?_⟩
  · intro hu
    by_contra hne
    have ht : rectIntersect (dolphinHitbox c dImg) (iceHitbox c iImg) = true := by
      simpa using hne
    obtain ⟨w', hu', hne', _⟩ := hit ht
    rw [hu] at hu'
    injection hu' with hu'
    exact hne' hu'.symm
  · intro hf
    rw [update_of_collisionTest hm hc, collisionStep_miss A c iImg dImg hi hd' hf]

/-- C11, amended, concrete instance: in the frame after 96 frames of swimming
with 64 by 64 sprites the hitboxes (obstacle box from 460 down to 514) intersect,
and the frame ends in OVER. -/
theorem collision_hitboxes_witness :
    ∃ w c w', runActions demoAssets almostCrashScript (initialWorld (JsInt.num 0) []) = some w ∧
      collisionTest 12 demoAssets demoDraws w = some c ∧
      update 12 demoAssets demoDraws w = .done w' ∧ w' ≠ c ∧
      w'.gameState.mode = Mode.OVER := by
  have hs : crashFacts demoAssets demoDraws
      (runActions demoAssets almostCrashScript (initialWorld (JsInt.num 0) [])) =
      some [true, true, true, true, true, true, true, true] := by decide!
  unfold crashFacts at hs
  cases hw : runActions demoAssets almostCrashScript (initialWorld (JsInt.num 0) []) with
  | none => simp [hw] at hs
  | some w =>
    simp only [hw, Option.some_bind] at hs
    cases hc : collisionTest 12 demoAssets demoDraws w with
    | none => simp [hc] at hs
    | some c =>
      simp only [hc, Option.map_some', Option.some.injEq, List.cons.injEq, decide_eq_true_eq,
        and_true] at hs
      obtain ⟨h1, h2, h3, _, _, _, h7, _⟩ := hs
      have hrect := h7
      rw [collides_eq demoAssets c ⟨64, 64⟩ ⟨64, 64⟩ h2 h3,
        (hitboxes_inset c ⟨64, 64⟩ ⟨64, 64⟩).1, (hitboxes_inset c ⟨64, 64⟩ ⟨64, 64⟩).2] at hrect
      obtain ⟨w', hu, hne, hcase⟩ :=
        (collision_hitboxes 12 demoAssets demoDraws w c ⟨64, 64⟩ ⟨64, 64⟩ h1 hc h2 h3).1 hrect
      refine ⟨w, c, w', rfl, hc, hu, hne, ?_⟩
      rcases hcase with ⟨_, _, _, _, hplay⟩ | ⟨_, hover⟩
      · have h6 : (match update 12 demoAssets demoDraws w with
            | .done w' => decide (w'.gameState.mode = Mode.OVER)
            | _ => false) = true := by assumption
        rw [hu] at h6
        simpa using h6
      · exact hover

end Jumper
